import Mathlib

/-!
Verification of the notification presentation subsystem of the ScreenCal
application (`src/notifications.py`).

The embedding models the module's global state (`_ACTIVE_NOTIFICATION`,
`_PENDING_NOTIFICATIONS`, `_CURRENT_STATE`, `_STATE_START_TIME`,
`_MIN_DISPLAY_TIMER`, `_SHUTTING_DOWN`) as a record `NotifState`, and every
operation of the module as a pure function on that record, returning the
updated state together with a trace of presentation-layer effects
(surface creation, surface touches, text re-layout, timer arming and
invalidation, state recording, queue operations).

Modelling decisions, all taken from the source:
* `APPKIT_AVAILABLE` is `True` (the toolkit path); the `osascript` banner
  fallback branches are out of scope.
* AppKit windows are values in an id-indexed store `windows : Nat → Option
  NotificationWindow`; Python object aliasing becomes lookup by window id.
* `NSTimer` / `threading.Timer` instances are fresh natural-number ids.
  A timer is "live" from the moment it is scheduled until it is invalidated,
  cancelled, or fires; the lists `live_fade_timers` / `live_dwell_timers`
  track exactly the live one-shot timers.
* Every mutation of the shared state in the source is marshalled onto the
  main thread (`_dispatch_to_main`, `performBlock_`); each function below is
  the main-thread execution of the corresponding body, run atomically, with
  the current monotonic clock passed in as `now : ℚ`.
* The fade-out animation is split into its two real phases: `startFadeOut`
  (timer callback: invalidate the handle, start the animation) and
  `fade_completion_handler` (the asynchronous completion block); windows with
  an animation in flight are tracked in `pending_fade_completions`.
* Exceptions: the modelled executions are the exception-free ones, except in
  `dispatch_to_main` where the possible failures of the marshalling
  primitives and of the callback are modelled by explicit flags mirroring
  the `try`/`except` nesting of the source.
-/

namespace ScreenCal

/-- The `NotificationState` enum of `notifications.py`. -/
inductive NotificationState where
  | idle
  | screenCaptured
  | processingLlm
  | eventDetected
  | noEvent
  deriving Repr, DecidableEq

/-- `_NOTIFICATION_TITLE` -/
def notificationTitle : String := "ScreenCal"

/-- `_CAPTURE_MESSAGE` -/
def captureMessage : String := "Screen captured, passing information to LLM"

/-- `_PROCESSING_MESSAGE` -/
def processingMessage : String := "Analyzing captured screen..."

/-- `_EVENT_DETECTED_MESSAGE` -/
def eventDetectedMessage : String := "Event detected, creating appointment"

/-- `_NO_EVENT_MESSAGE` -/
def noEventMessage : String := "No event detected"

/-- `_CALENDAR_MESSAGE` -/
def calendarMessage : String := "Opening calendar"

/-- `_MIN_CAPTURE_DISPLAY` (seconds) -/
def minCaptureDisplay : ℚ := 2

/-- `_EVENT_FADE_TIMEOUT` (seconds) -/
def eventFadeTimeout : ℚ := 3

/-- `_NO_EVENT_FADE_TIMEOUT` (seconds) -/
def noEventFadeTimeout : ℚ := 5 / 2

/-- `_CALENDAR_FADE_TIMEOUT` (seconds) -/
def calendarFadeTimeout : ℚ := 2

/-- The `NotificationWindow` wrapper class: one presentation surface.
`fade_timer` is the `_fade_timer` NSTimer handle (by timer id), `fade_helper`
and `ns_window` record whether the `_fade_helper` / `ns_window` references
are still held. -/
structure NotificationWindow where
  wid : Nat
  title : String
  text : String
  notification_active : Bool
  fade_timer : Option Nat
  fade_helper : Bool
  ns_window : Bool
  deriving Repr, DecidableEq

/-- Observable presentation-layer effects of an operation, in execution
order. `touch_surface` covers every direct access to the `NSWindow`
(ordering front or out, alpha changes, `displayIfNeeded`, animator calls). -/
inductive Effect where
  | create_surface (wid : Nat)
  | touch_surface (wid : Nat)
  | update_text (wid : Nat) (message : String)
  | arm_fade (tid : Nat) (timeout : ℚ)
  | invalidate_fade (tid : Nat)
  | arm_dwell (tid : Nat) (duration : ℚ)
  | cancel_dwell (tid : Nat)
  | record_state (st : NotificationState) (time : ℚ)
  | present (message : String) (timeout : Option ℚ)
  | enqueue (title message : String) (timeout : Option ℚ)
  | dequeue (title message : String) (timeout : Option ℚ)
  deriving Repr, DecidableEq

/-- The module-level mutable state of `notifications.py`. -/
structure NotifState where
  windows : Nat → Option NotificationWindow
  active_notification : Option Nat
  pending_notifications : List (String × String × Option ℚ)
  current_state : NotificationState
  state_start_time : ℚ
  min_display_timer : Option Nat
  shutting_down : Bool
  live_fade_timers : List (Nat × Nat)
  live_dwell_timers : List Nat
  pending_fade_completions : List Nat
  next_timer_id : Nat
  next_window_id : Nat

/-- The state at module import time. -/
def initState : NotifState :=
  { windows := fun _ => none
    active_notification := none
    pending_notifications := []
    current_state := NotificationState.idle
    state_start_time := 0
    min_display_timer := none
    shutting_down := false
    live_fade_timers := []
    live_dwell_timers := []
    pending_fade_completions := []
    next_timer_id := 0
    next_window_id := 0 }

/-- Mutate the window object with id `wid` in place (Python attribute
assignment through any alias). -/
def setWindow (s : NotifState) (wid : Nat) (f : NotificationWindow → NotificationWindow) :
    NotifState :=
  { s with windows := fun n => if n = wid then (s.windows n).map f else s.windows n }

/-- `_cancel_min_display_timer`: cancel the dwell timer held in
`_MIN_DISPLAY_TIMER` (if any) and clear the handle. -/
def cancel_min_display_timer (s : NotifState) : NotifState × List Effect :=
  match s.min_display_timer with
  | none => (s, [])
  | some tid =>
      ({ s with min_display_timer := none,
                live_dwell_timers := s.live_dwell_timers.erase tid },
       [Effect.cancel_dwell tid])

/-- `_start_min_display_timer`: cancel any previous dwell timer, then start a
fresh `threading.Timer` for `_MIN_CAPTURE_DISPLAY` seconds. -/
def start_min_display_timer (s : NotifState) : NotifState × List Effect :=
  let r := cancel_min_display_timer s
  let tid := r.1.next_timer_id
  ({ r.1 with min_display_timer := some tid,
              live_dwell_timers := tid :: r.1.live_dwell_timers,
              next_timer_id := tid + 1 },
   r.2 ++ [Effect.arm_dwell tid minCaptureDisplay])

/-- `_cancel_fade_on_main`: invalidate the window's `_fade_timer` (if any)
and clear the handle. -/
def cancel_fade_on_main (s : NotifState) (wid : Nat) : NotifState × List Effect :=
  match s.windows wid with
  | none => (s, [])
  | some w =>
      let s1 := setWindow s wid (fun v => { v with fade_timer := none })
      match w.fade_timer with
      | none => (s1, [])
      | some tid =>
          ({ s1 with live_fade_timers := s1.live_fade_timers.filter (fun p => p.1 ≠ tid) },
           [Effect.invalidate_fade tid])

/-- `_reschedule_fade_on_main`: `None` timeout means cancel only; otherwise
cancel the previous fade timer, ensure a fade helper exists, and schedule a
fresh `NSTimer` for `timeout` seconds targeting this window. -/
def reschedule_fade_on_main (s : NotifState) (wid : Nat) (timeout : Option ℚ) :
    NotifState × List Effect :=
  match s.windows wid with
  | none => (s, [])
  | some _ =>
      match timeout with
      | none => cancel_fade_on_main s wid
      | some q =>
          let r := cancel_fade_on_main s wid
          let s1 := setWindow r.1 wid (fun v => { v with fade_helper := true })
          let tid := s1.next_timer_id
          let s2 := setWindow
            { s1 with next_timer_id := tid + 1,
                      live_fade_timers := (tid, wid) :: s1.live_fade_timers } wid
            (fun v => { v with fade_timer := some tid })
          (s2, r.2 ++ [Effect.arm_fade tid q])

/-- `_update_active_notification_text_on_main`: re-layout the text of the
active window in place and `displayIfNeeded`. -/
def update_active_notification_text_on_main (s : NotifState) (message : String) :
    NotifState × List Effect :=
  match s.active_notification with
  | none => (s, [])
  | some wid =>
      (setWindow s wid (fun v => { v with text := message }),
       [Effect.update_text wid message, Effect.touch_surface wid])

/-- `_show_overlay_window`: create a fresh overlay window, mark it active,
order it front with a fade-in animation, attach a fade helper, and schedule
the fade-out timer when a timeout is given (exception-free execution). -/
def show_overlay_window (s : NotifState) (title message : String) (timeout : Option ℚ) :
    NotifState × List Effect :=
  if s.shutting_down then (s, [])
  else
    let wid := s.next_window_id
    let tid := s.next_timer_id
    let w : NotificationWindow :=
      { wid := wid, title := title, text := message, notification_active := true,
        fade_timer := timeout.map fun _ => tid, fade_helper := true, ns_window := true }
    let s1 : NotifState :=
      { s with windows := fun n => if n = wid then some w else s.windows n,
               active_notification := some wid,
               next_window_id := wid + 1,
               next_timer_id := if timeout.isSome then tid + 1 else tid,
               live_fade_timers :=
                 match timeout with
                 | some _ => (tid, wid) :: s.live_fade_timers
                 | none => s.live_fade_timers }
    (s1, [Effect.create_surface wid, Effect.touch_surface wid] ++
         (match timeout with
          | some q => [Effect.arm_fade tid q]
          | none => []))

/-- `_dequeue_and_show_next`: show the next pending notification when nothing
is currently referenced by `_ACTIVE_NOTIFICATION`. -/
def dequeue_and_show_next (s : NotifState) : NotifState × List Effect :=
  if s.shutting_down then (s, [])
  else if s.active_notification.isSome then (s, [])
  else
    match s.pending_notifications with
    | [] => (s, [])
    | (title, message, timeout) :: rest =>
        let r := show_overlay_window { s with pending_notifications := rest } title message timeout
        (r.1, Effect.dequeue title message timeout :: r.2)

/-- `show_notification`, toolkit path, body `enqueue_on_main` as it executes
on the main thread: append to `_PENDING_NOTIFICATIONS` (no shutdown check in
the source) and try to dequeue; the function returns `True`. -/
def show_notification_on_main (s : NotifState) (title message : String) (timeout : Option ℚ) :
    NotifState × List Effect × Bool :=
  let s1 := { s with pending_notifications :=
                s.pending_notifications ++ [(title, message, timeout)] }
  let r := dequeue_and_show_next s1
  (r.1, Effect.enqueue title message timeout :: r.2, true)

/-- The create-a-new-surface branch of `_present_or_update_notification_on_main`:
show a fresh overlay window and, for a sticky request, cancel any fade timer
on the newly created window. -/
def present_create_branch (s : NotifState) (message : String) (fade_timeout : Option ℚ) :
    NotifState × List Effect :=
  let r := show_overlay_window s notificationTitle message fade_timeout
  match fade_timeout, r.1.active_notification with
  | none, some wid2 =>
      let r2 := cancel_fade_on_main r.1 wid2
      (r2.1, Effect.present message fade_timeout :: (r.2 ++ r2.2))
  | _, _ => (r.1, Effect.present message fade_timeout :: r.2)

/-- `_present_or_update_notification_on_main`: if an active window exists,
update its text in place and cancel (sticky) or reschedule (finite timeout)
its fade timer; otherwise create a fresh surface. -/
def present_or_update_notification_on_main (s : NotifState) (message : String)
    (fade_timeout : Option ℚ) : NotifState × List Effect :=
  if s.shutting_down then (s, [])
  else
    match s.active_notification with
    | some wid =>
        match s.windows wid with
        | some w =>
            if w.notification_active then
              let r1 := update_active_notification_text_on_main s message
              let r2 :=
                match fade_timeout with
                | none => cancel_fade_on_main r1.1 wid
                | some q => reschedule_fade_on_main r1.1 wid (some q)
              (r2.1, Effect.present message fade_timeout :: (r1.2 ++ r2.2))
            else present_create_branch s message fade_timeout
        | none => present_create_branch s message fade_timeout
    | none => present_create_branch s message fade_timeout

/-- `_transition_state`, the `_execute_transition` body as it runs on the
main thread: gate on shutdown, cancel the dwell timer, optionally arm a fresh
one, record the new state and entry time, then present or update. -/
def execute_transition (now : ℚ) (new_state : NotificationState) (message : String)
    (fade_timeout : Option ℚ) (start_min : Bool) (s : NotifState) : NotifState × List Effect :=
  if s.shutting_down then (s, [])
  else
    let r1 := cancel_min_display_timer s
    let r2 := if start_min then start_min_display_timer r1.1 else (r1.1, [])
    let s3 := { r2.1 with current_state := new_state, state_start_time := now }
    let r4 := present_or_update_notification_on_main s3 message fade_timeout
    (r4.1, r1.2 ++ r2.2 ++ (Effect.record_state new_state now :: r4.2))

/-- `_close_notification_window` together with its `_close_on_main` body
(which the source always ends up running on the main thread): a `none` target
means `_ACTIVE_NOTIFICATION`; closing an already-inactive window is a no-op
returning `False`; otherwise the window is marked inactive first, its fade
timer invalidated, its helper and (outside shutdown) its `NSWindow` dropped,
and the module state reset to idle. -/
def close_notification_window (s : NotifState) (target : Option Nat) :
    NotifState × List Effect × Bool :=
  match (match target with | some wid => some wid | none => s.active_notification) with
  | none => (s, [], false)
  | some wid =>
      match s.windows wid with
      | none => (s, [], false)
      | some w =>
          if w.notification_active = false then (s, [], false)
          else
            let s1 := setWindow s wid (fun v => { v with notification_active := false })
            let r2 := cancel_fade_on_main s1 wid
            let s3 := setWindow r2.1 wid (fun v => { v with fade_helper := false })
            let r4 : NotifState × List Effect :=
              if s3.shutting_down then (s3, [])
              else (setWindow s3 wid (fun v => { v with ns_window := false }),
                    [Effect.touch_surface wid])
            let s5 := { r4.1 with active_notification := none,
                                  current_state := NotificationState.idle,
                                  state_start_time := 0 }
            let r6 := cancel_min_display_timer s5
            (r6.1, r2.2 ++ r4.2 ++ r6.2, true)

/-- `NotificationFadeHelper.startFadeOut_`, invoked when a scheduled fade
timer fires: gate on shutdown and on the window's active flag, invalidate the
stored fade-timer handle, and start the fade-out animation (whose completion
block is delivered later). -/
def startFadeOut (s : NotifState) (wid : Nat) : NotifState × List Effect :=
  if s.shutting_down then (s, [])
  else
    match s.windows wid with
    | none => (s, [])
    | some w =>
        if w.notification_active = false then (s, [])
        else
          let r := cancel_fade_on_main s wid
          ({ r.1 with pending_fade_completions := wid :: r.1.pending_fade_completions },
           r.2 ++ [Effect.touch_surface wid])

/-- The `_completion_handler` of `startFadeOut_`, delivered when the fade-out
animation finishes: gate on shutdown, skip windows already marked inactive,
otherwise close the window (source `"fade"`). -/
def fade_completion_handler (s : NotifState) (wid : Nat) : NotifState × List Effect :=
  if s.shutting_down then (s, [])
  else
    match s.windows wid with
    | none => (s, [])
    | some w =>
        if w.notification_active = false then (s, [])
        else
          let r := close_notification_window s (some wid)
          (r.1, r.2.1)

/-- The `_on_main` body of `_handle_minimum_display_elapsed`, as it runs on
the main thread: clear the handle; transition to `PROCESSING_LLM` only if the
state is still `SCREEN_CAPTURED`. -/
def handle_minimum_display_elapsed_on_main (now : ℚ) (s : NotifState) :
    NotifState × List Effect :=
  if s.shutting_down then ({ s with min_display_timer := none }, [])
  else
    let s1 := { s with min_display_timer := none }
    if s1.current_state = NotificationState.screenCaptured then
      execute_transition now NotificationState.processingLlm processingMessage none false s1
    else (s1, [])

/-- `_handle_minimum_display_elapsed`: the `threading.Timer` callback; on
shutdown it only clears the handle, otherwise it marshals `_on_main`. -/
def handle_minimum_display_elapsed (now : ℚ) (s : NotifState) : NotifState × List Effect :=
  if s.shutting_down then ({ s with min_display_timer := none }, [])
  else handle_minimum_display_elapsed_on_main now s

/-- `notification_on_capture_complete` (toolkit path): transition to
`SCREEN_CAPTURED`, sticky, dwell timer armed; returns `True`. -/
def notification_on_capture_complete (now : ℚ) (s : NotifState) :
    NotifState × List Effect × Bool :=
  let r := execute_transition now NotificationState.screenCaptured captureMessage none true s
  (r.1, r.2, true)

/-- `notification_on_llm_processing_start` (toolkit path), `_maybe_transition`
body on the main thread. -/
def notification_on_llm_processing_start (now : ℚ) (s : NotifState) : NotifState × List Effect :=
  if s.current_state = NotificationState.screenCaptured then
    if minCaptureDisplay ≤ now - s.state_start_time then
      execute_transition now NotificationState.processingLlm processingMessage none false s
    else (s, [])
  else if s.current_state = NotificationState.idle then
    execute_transition now NotificationState.processingLlm processingMessage none false s
  else (s, [])

/-- `notification_on_llm_complete` (toolkit path). -/
def notification_on_llm_complete (now : ℚ) (event_found : Bool) (s : NotifState) :
    NotifState × List Effect :=
  if event_found then
    execute_transition now NotificationState.eventDetected eventDetectedMessage none false s
  else
    execute_transition now NotificationState.noEvent noEventMessage
      (some noEventFadeTimeout) false s

/-- `notification_on_calendar_opening` (toolkit path). -/
def notification_on_calendar_opening (now : ℚ) (s : NotifState) : NotifState × List Effect :=
  execute_transition now NotificationState.eventDetected calendarMessage
    (some calendarFadeTimeout) false s

/-- `notification_reset`, `_dismiss` body on the main thread: gate on
shutdown, nothing to do when no active notification, otherwise close it
(source `"reset"`). -/
def notification_reset (s : NotifState) : NotifState × List Effect :=
  if s.shutting_down then (s, [])
  else
    match s.active_notification with
    | none => (s, [])
    | some wid =>
        let r := close_notification_window s (some wid)
        (r.1, r.2.1)

/-- `notification_shutdown`: idempotent; set the shutdown flag first, cancel
the Python dwell timer, clear references and the pending queue. AppKit
objects (windows, NSTimers) are deliberately not touched. -/
def notification_shutdown (s : NotifState) : NotifState × List Effect :=
  if s.shutting_down then (s, [])
  else
    let s1 := { s with shutting_down := true }
    let r2 := cancel_min_display_timer s1
    ({ r2.1 with active_notification := none,
                 current_state := NotificationState.idle,
                 state_start_time := 0,
                 pending_notifications := [] }, r2.2)

/-- The `_update` closure of `update_notification`, as it executes on the
main thread: update the active window in place (cancel or reschedule its fade
timer) and record success, or fall back to `show_notification` with a
defaulted 3-second timeout when no active window exists. -/
def update_notification_on_main (s : NotifState) (message : String) (timeout : Option ℚ) :
    NotifState × List Effect × Bool :=
  match s.active_notification with
  | some wid =>
      match s.windows wid with
      | some w =>
          if w.notification_active then
            let r1 := update_active_notification_text_on_main s message
            let r2 :=
              match timeout with
              | none => cancel_fade_on_main r1.1 wid
              | some q => reschedule_fade_on_main r1.1 wid (some q)
            (r2.1, r1.2 ++ r2.2, true)
          else show_notification_on_main s notificationTitle message (some (timeout.getD 3))
      | none => show_notification_on_main s notificationTitle message (some (timeout.getD 3))
  | none => show_notification_on_main s notificationTitle message (some (timeout.getD 3))

/-- `update_notification` (toolkit path), with the calling thread made
explicit. The result record starts at `False`; `_dispatch_to_main` either
drops the callback (shutdown), runs it inline (main thread), or marshals it
asynchronously via `performBlock_` — in which case the result record is read
back before the callback has run. -/
def update_notification (is_main_thread : Bool) (s : NotifState) (message : String)
    (timeout : Option ℚ) : NotifState × List Effect × Bool :=
  if s.shutting_down then (s, [], false)
  else if is_main_thread then update_notification_on_main s message timeout
  else (s, [], false)

/-- How `_dispatch_to_main` disposed of its callback. -/
inductive DispatchAction where
  | inline_call
  | queue_primary
  | queue_secondary
  | direct_fallback
  deriving Repr, DecidableEq

/-- The off-main-thread marshalling chain of `_dispatch_to_main`:
`NSRunLoop.mainRunLoop().performBlock_`, then
`performSelectorOnMainThread_withObject_waitUntilDone_`, then a direct call
as last resort. The flags say whether each primitive succeeds; a failing
primitive raises inside its own `try` and is caught. -/
def dispatch_marshal (primary_ok secondary_ok : Bool) : List DispatchAction :=
  if primary_ok then [DispatchAction.queue_primary]
  else if secondary_ok then [DispatchAction.queue_secondary]
  else [DispatchAction.direct_fallback]

/-- `_dispatch_to_main`. Returns the list of actions taken and whether an
exception escaped to the caller. On the main thread the callback runs inside
the thread-check `try`; if the callback itself raises there, the handler
swallows the exception and control falls through to the marshalling chain
(the source's behaviour). A raise in the last-resort direct call is caught by
the outermost handler. -/
def dispatch_to_main (shutting_down is_main_thread callback_raises
    primary_ok secondary_ok : Bool) : List DispatchAction × Bool :=
  if shutting_down then ([], false)
  else if is_main_thread then
    if callback_raises then
      (DispatchAction.inline_call :: dispatch_marshal primary_ok secondary_ok, false)
    else ([DispatchAction.inline_call], false)
  else (dispatch_marshal primary_ok secondary_ok, false)

/-- The events that drive the subsystem: the public entry points (their
main-thread bodies) and the three asynchronous callbacks (dwell timer fired,
fade timer fired, fade animation completed). -/
inductive NotifEvent where
  | capture_complete
  | llm_processing_start
  | llm_complete (event_found : Bool)
  | calendar_opening
  | update_request (message : String) (timeout : Option ℚ)
  | show_request (title message : String) (timeout : Option ℚ)
  | reset_request
  | shutdown_request
  | dwell_elapsed (tid : Nat)
  | fade_fired (tid : Nat)
  | fade_animation_done (wid : Nat)
  deriving Repr, DecidableEq

/-- One atomic main-thread step of the subsystem. A timer event only does
anything if that timer is live (a cancelled/invalidated one-shot timer never
fires); firing consumes the timer. -/
def runEvent (now : ℚ) (e : NotifEvent) (s : NotifState) : NotifState × List Effect :=
  match e with
  | NotifEvent.capture_complete =>
      let r := notification_on_capture_complete now s
      (r.1, r.2.1)
  | NotifEvent.llm_processing_start => notification_on_llm_processing_start now s
  | NotifEvent.llm_complete f => notification_on_llm_complete now f s
  | NotifEvent.calendar_opening => notification_on_calendar_opening now s
  | NotifEvent.update_request m t =>
      let r := update_notification_on_main s m t
      (r.1, r.2.1)
  | NotifEvent.show_request ti m t =>
      let r := show_notification_on_main s ti m t
      (r.1, r.2.1)
  | NotifEvent.reset_request => notification_reset s
  | NotifEvent.shutdown_request => notification_shutdown s
  | NotifEvent.dwell_elapsed tid =>
      if s.live_dwell_timers.contains tid then
        handle_minimum_display_elapsed now
          { s with live_dwell_timers := s.live_dwell_timers.erase tid }
      else (s, [])
  | NotifEvent.fade_fired tid =>
      match s.live_fade_timers.find? (fun p => p.1 = tid) with
      | some p =>
          startFadeOut
            { s with live_fade_timers := s.live_fade_timers.filter (fun q => q.1 ≠ tid) } p.2
      | none => (s, [])
  | NotifEvent.fade_animation_done wid =>
      if s.pending_fade_completions.contains wid then
        fade_completion_handler
          { s with pending_fade_completions := s.pending_fade_completions.erase wid } wid
      else (s, [])

/-- The transition relation of the subsystem. -/
def NotifStep (s s' : NotifState) : Prop :=
  ∃ (now : ℚ) (e : NotifEvent), s' = (runEvent now e s).1

/-- States reachable from module import. -/
def Reachable (s : NotifState) : Prop :=
  Relation.ReflTransGen NotifStep initState s

/-- The window object created by `_show_overlay_window`. -/
def freshWindow (s : NotifState) (title message : String) (timeout : Option ℚ) :
    NotificationWindow :=
  { wid := s.next_window_id, title := title, text := message, notification_active := true,
    fade_timer := timeout.map fun _ => s.next_timer_id, fade_helper := true, ns_window := true }

/-- Structural invariant of the subsystem state, preserved by every event:
* at most one live dwell timer, and it is the one stored in the handle;
* at most one live fade timer, and it is the one stored in the `_fade_timer`
  of a still-active window;
* before shutdown, an active-flagged window is the `_ACTIVE_NOTIFICATION`;
* after shutdown, `_ACTIVE_NOTIFICATION` is cleared;
* timer ids stored anywhere are below the allocation counter, and no two
  windows hold the same fade-timer id. -/
structure Inv (s : NotifState) : Prop where
  dwell : s.live_dwell_timers = [] ∨
    ∃ t, s.live_dwell_timers = [t] ∧ s.min_display_timer = some t
  fade : s.live_fade_timers = [] ∨
    ∃ t w win, s.live_fade_timers = [(t, w)] ∧ s.windows w = some win ∧
      win.fade_timer = some t ∧ win.notification_active = true
  active_unique : ∀ w win, s.windows w = some win → win.notification_active = true →
    s.shutting_down = false → s.active_notification = some w
  shutdown_active : s.shutting_down = true → s.active_notification = none
  handle_fresh : ∀ t, s.min_display_timer = some t → t < s.next_timer_id
  fade_fresh : ∀ p ∈ s.live_fade_timers, p.1 < s.next_timer_id
  dwell_fresh : ∀ t ∈ s.live_dwell_timers, t < s.next_timer_id
  win_fresh : ∀ w win t, s.windows w = some win → win.fade_timer = some t →
    t < s.next_timer_id
  handle_unique : ∀ w1 w2 win1 win2 t, s.windows w1 = some win1 → s.windows w2 = some win2 →
    win1.fade_timer = some t → win2.fade_timer = some t → w1 = w2

/-- The module state right after `notification_shutdown` on a fresh module. -/
def shutdownState : NotifState := (notification_shutdown initState).1

/-- State after one `show_notification` on a fresh module: one active overlay
window (id 0) showing "hello" with a live 3-second fade timer (id 0). -/
def sampleShown : NotifState :=
  (runEvent 0 (NotifEvent.show_request "ScreenCal" "hello" (some 3)) initState).1

/-- The window object of `sampleShown`. -/
def sampleWindow : NotificationWindow :=
  { wid := 0, title := "ScreenCal", text := "hello", notification_active := true,
    fade_timer := some 0, fade_helper := true, ns_window := true }

/-- A second `show_notification` while the first window is still visible:
the request stays in the pending queue. -/
def sampleTwo : NotifState :=
  (runEvent 0 (NotifEvent.show_request "T2" "m2" (some 2)) sampleShown).1

/-- `sampleTwo` after window 0's fade timer fired: the fade-out animation is
running and its completion is pending. -/
def sampleFading : NotifState := (runEvent 0 (NotifEvent.fade_fired 0) sampleTwo).1

/-- State after `notification_on_capture_complete` on a fresh module. -/
def sampleCaptured : NotifState := (runEvent 0 NotifEvent.capture_complete initState).1

/-- `sampleShown` after `notification_reset` closed the window. -/
def sampleClosed : NotifState := (runEvent 0 NotifEvent.reset_request sampleShown).1

/-- The (torn-down) window object of `sampleClosed`. -/
def closedWindow : NotificationWindow :=
  { wid := 0, title := "ScreenCal", text := "hello", notification_active := false,
    fade_timer := none, fade_helper := false, ns_window := false }

/-! ### Projection lemmas for the primitive operations -/

@[simp] theorem setWindow_windows (s : NotifState) (wid : Nat)
    (f : NotificationWindow → NotificationWindow) (n : Nat) :
    (setWindow s wid f).windows n = if n = wid then (s.windows n).map f else s.windows n := rfl

@[simp] theorem setWindow_active (s : NotifState) (wid : Nat)
    (f : NotificationWindow → NotificationWindow) :
    (setWindow s wid f).active_notification = s.active_notification := rfl

@[simp] theorem setWindow_pending (s : NotifState) (wid : Nat)
    (f : NotificationWindow → NotificationWindow) :
    (setWindow s wid f).pending_notifications = s.pending_notifications := rfl

@[simp] theorem setWindow_state (s : NotifState) (wid : Nat)
    (f : NotificationWindow → NotificationWindow) :
    (setWindow s wid f).current_state = s.current_state := rfl

@[simp] theorem setWindow_start (s : NotifState) (wid : Nat)
    (f : NotificationWindow → NotificationWindow) :
    (setWindow s wid f).state_start_time = s.state_start_time := rfl

@[simp] theorem setWindow_min (s : NotifState) (wid : Nat)
    (f : NotificationWindow → NotificationWindow) :
    (setWindow s wid f).min_display_timer = s.min_display_timer := rfl

@[simp] theorem setWindow_shutting (s : NotifState) (wid : Nat)
    (f : NotificationWindow → NotificationWindow) :
    (setWindow s wid f).shutting_down = s.shutting_down := rfl

@[simp] theorem setWindow_fade (s : NotifState) (wid : Nat)
    (f : NotificationWindow → NotificationWindow) :
    (setWindow s wid f).live_fade_timers = s.live_fade_timers := rfl

@[simp] theorem setWindow_dwell (s : NotifState) (wid : Nat)
    (f : NotificationWindow → NotificationWindow) :
    (setWindow s wid f).live_dwell_timers = s.live_dwell_timers := rfl

@[simp] theorem setWindow_completions (s : NotifState) (wid : Nat)
    (f : NotificationWindow → NotificationWindow) :
    (setWindow s wid f).pending_fade_completions = s.pending_fade_completions := rfl

@[simp] theorem setWindow_next_timer (s : NotifState) (wid : Nat)
    (f : NotificationWindow → NotificationWindow) :
    (setWindow s wid f).next_timer_id = s.next_timer_id := rfl

@[simp] theorem setWindow_next_window (s : NotifState) (wid : Nat)
    (f : NotificationWindow → NotificationWindow) :
    (setWindow s wid f).next_window_id = s.next_window_id := rfl

@[simp] theorem cancel_min_windows (s : NotifState) :
    (cancel_min_display_timer s).1.windows = s.windows := by
  unfold cancel_min_display_timer; cases s.min_display_timer <;> rfl

@[simp] theorem cancel_min_active (s : NotifState) :
    (cancel_min_display_timer s).1.active_notification = s.active_notification := by
  unfold cancel_min_display_timer; cases s.min_display_timer <;> rfl

@[simp] theorem cancel_min_pending (s : NotifState) :
    (cancel_min_display_timer s).1.pending_notifications = s.pending_notifications := by
  unfold cancel_min_display_timer; cases s.min_display_timer <;> rfl

@[simp] theorem cancel_min_state (s : NotifState) :
    (cancel_min_display_timer s).1.current_state = s.current_state := by
  unfold cancel_min_display_timer; cases s.min_display_timer <;> rfl

@[simp] theorem cancel_min_start (s : NotifState) :
    (cancel_min_display_timer s).1.state_start_time = s.state_start_time := by
  unfold cancel_min_display_timer; cases s.min_display_timer <;> rfl

@[simp] theorem cancel_min_shutting (s : NotifState) :
    (cancel_min_display_timer s).1.shutting_down = s.shutting_down := by
  unfold cancel_min_display_timer; cases s.min_display_timer <;> rfl

@[simp] theorem cancel_min_fade (s : NotifState) :
    (cancel_min_display_timer s).1.live_fade_timers = s.live_fade_timers := by
  unfold cancel_min_display_timer; cases s.min_display_timer <;> rfl

@[simp] theorem cancel_min_completions (s : NotifState) :
    (cancel_min_display_timer s).1.pending_fade_completions = s.pending_fade_completions := by
  unfold cancel_min_display_timer; cases s.min_display_timer <;> rfl

@[simp] theorem cancel_min_next_timer (s : NotifState) :
    (cancel_min_display_timer s).1.next_timer_id = s.next_timer_id := by
  unfold cancel_min_display_timer; cases s.min_display_timer <;> rfl

@[simp] theorem cancel_min_next_window (s : NotifState) :
    (cancel_min_display_timer s).1.next_window_id = s.next_window_id := by
  unfold cancel_min_display_timer; cases s.min_display_timer <;> rfl

@[simp] theorem cancel_min_min (s : NotifState) :
    (cancel_min_display_timer s).1.min_display_timer = none := by
  unfold cancel_min_display_timer
  cases h : s.min_display_timer <;> simp [h]

theorem cancel_min_dwell_sub (s : NotifState) :
    ∀ t ∈ (cancel_min_display_timer s).1.live_dwell_timers, t ∈ s.live_dwell_timers := by
  unfold cancel_min_display_timer
  cases s.min_display_timer with
  | none => intro t ht; exact ht
  | some tid => intro t ht; exact List.mem_of_mem_erase ht

/-- After `_cancel_min_display_timer`, when the dwell bookkeeping is
consistent (every live dwell timer is the one stored in the handle), no live
dwell timer remains. -/
theorem cancel_min_dwell_empty (s : NotifState)
    (h : s.live_dwell_timers = [] ∨
      ∃ t, s.live_dwell_timers = [t] ∧ s.min_display_timer = some t) :
    (cancel_min_display_timer s).1.live_dwell_timers = [] := by
  unfold cancel_min_display_timer
  rcases h with h | ⟨t, hl, hm⟩
  · cases hmd : s.min_display_timer <;> simp [hmd, h]
  · simp [hm, hl]

@[simp] theorem start_min_windows (s : NotifState) :
    (start_min_display_timer s).1.windows = s.windows := by
  unfold start_min_display_timer; simp

@[simp] theorem start_min_active (s : NotifState) :
    (start_min_display_timer s).1.active_notification = s.active_notification := by
  unfold start_min_display_timer; simp

@[simp] theorem start_min_pending (s : NotifState) :
    (start_min_display_timer s).1.pending_notifications = s.pending_notifications := by
  unfold start_min_display_timer; simp

@[simp] theorem start_min_state (s : NotifState) :
    (start_min_display_timer s).1.current_state = s.current_state := by
  unfold start_min_display_timer; simp

@[simp] theorem start_min_start (s : NotifState) :
    (start_min_display_timer s).1.state_start_time = s.state_start_time := by
  unfold start_min_display_timer; simp

@[simp] theorem start_min_shutting (s : NotifState) :
    (start_min_display_timer s).1.shutting_down = s.shutting_down := by
  unfold start_min_display_timer; simp

@[simp] theorem start_min_fade (s : NotifState) :
    (start_min_display_timer s).1.live_fade_timers = s.live_fade_timers := by
  unfold start_min_display_timer; simp

@[simp] theorem start_min_completions (s : NotifState) :
    (start_min_display_timer s).1.pending_fade_completions = s.pending_fade_completions := by
  unfold start_min_display_timer; simp

@[simp] theorem start_min_next_window (s : NotifState) :
    (start_min_display_timer s).1.next_window_id = s.next_window_id := by
  unfold start_min_display_timer; simp

@[simp] theorem start_min_min (s : NotifState) :
    (start_min_display_timer s).1.min_display_timer = some s.next_timer_id := by
  unfold start_min_display_timer; simp

@[simp] theorem start_min_next_timer (s : NotifState) :
    (start_min_display_timer s).1.next_timer_id = s.next_timer_id + 1 := by
  unfold start_min_display_timer; simp

theorem start_min_dwell (s : NotifState) :
    (start_min_display_timer s).1.live_dwell_timers =
      s.next_timer_id :: (cancel_min_display_timer s).1.live_dwell_timers := by
  unfold start_min_display_timer; simp

@[simp] theorem cancel_fade_active (s : NotifState) (wid : Nat) :
    (cancel_fade_on_main s wid).1.active_notification = s.active_notification := by
  unfold cancel_fade_on_main
  cases h : s.windows wid with
  | none => rfl
  | some w => cases hf : w.fade_timer <;> simp [hf]

@[simp] theorem cancel_fade_pending (s : NotifState) (wid : Nat) :
    (cancel_fade_on_main s wid).1.pending_notifications = s.pending_notifications := by
  unfold cancel_fade_on_main
  cases h : s.windows wid with
  | none => rfl
  | some w => cases hf : w.fade_timer <;> simp [hf]

@[simp] theorem cancel_fade_state (s : NotifState) (wid : Nat) :
    (cancel_fade_on_main s wid).1.current_state = s.current_state := by
  unfold cancel_fade_on_main
  cases h : s.windows wid with
  | none => rfl
  | some w => cases hf : w.fade_timer <;> simp [hf]

@[simp] theorem cancel_fade_start (s : NotifState) (wid : Nat) :
    (cancel_fade_on_main s wid).1.state_start_time = s.state_start_time := by
  unfold cancel_fade_on_main
  cases h : s.windows wid with
  | none => rfl
  | some w => cases hf : w.fade_timer <;> simp [hf]

@[simp] theorem cancel_fade_min (s : NotifState) (wid : Nat) :
    (cancel_fade_on_main s wid).1.min_display_timer = s.min_display_timer := by
  unfold cancel_fade_on_main
  cases h : s.windows wid with
  | none => rfl
  | some w => cases hf : w.fade_timer <;> simp [hf]

@[simp] theorem cancel_fade_shutting (s : NotifState) (wid : Nat) :
    (cancel_fade_on_main s wid).1.shutting_down = s.shutting_down := by
  unfold cancel_fade_on_main
  cases h : s.windows wid with
  | none => rfl
  | some w => cases hf : w.fade_timer <;> simp [hf]

@[simp] theorem cancel_fade_dwell (s : NotifState) (wid : Nat) :
    (cancel_fade_on_main s wid).1.live_dwell_timers = s.live_dwell_timers := by
  unfold cancel_fade_on_main
  cases h : s.windows wid with
  | none => rfl
  | some w => cases hf : w.fade_timer <;> simp [hf]

@[simp] theorem cancel_fade_completions (s : NotifState) (wid : Nat) :
    (cancel_fade_on_main s wid).1.pending_fade_completions = s.pending_fade_completions := by
  unfold cancel_fade_on_main
  cases h : s.windows wid with
  | none => rfl
  | some w => cases hf : w.fade_timer <;> simp [hf]

@[simp] theorem cancel_fade_next_timer (s : NotifState) (wid : Nat) :
    (cancel_fade_on_main s wid).1.next_timer_id = s.next_timer_id := by
  unfold cancel_fade_on_main
  cases h : s.windows wid with
  | none => rfl
  | some w => cases hf : w.fade_timer <;> simp [hf]

@[simp] theorem cancel_fade_next_window (s : NotifState) (wid : Nat) :
    (cancel_fade_on_main s wid).1.next_window_id = s.next_window_id := by
  unfold cancel_fade_on_main
  cases h : s.windows wid with
  | none => rfl
  | some w => cases hf : w.fade_timer <;> simp [hf]

theorem cancel_fade_windows (s : NotifState) (wid n : Nat) :
    (cancel_fade_on_main s wid).1.windows n =
      if n = wid then (s.windows n).map (fun v => { v with fade_timer := none })
      else s.windows n := by
  unfold cancel_fade_on_main
  cases h : s.windows wid with
  | none =>
      by_cases hn : n = wid
      · subst hn; simp [h]
      · simp [hn]
  | some w => cases hf : w.fade_timer <;> simp [hf]

theorem cancel_fade_fade_sub (s : NotifState) (wid : Nat) :
    ∀ p ∈ (cancel_fade_on_main s wid).1.live_fade_timers, p ∈ s.live_fade_timers := by
  unfold cancel_fade_on_main
  cases h : s.windows wid with
  | none => intro p hp; exact hp
  | some w =>
      intro p hp
      cases hf : w.fade_timer with
      | none => simp [hf] at hp; exact hp
      | some tid =>
          simp [hf, List.mem_filter] at hp
          exact hp.1

theorem cancel_fade_fade_of_handle (s : NotifState) (wid : Nat) (w : NotificationWindow)
    (tid : Nat) (h : s.windows wid = some w) (hf : w.fade_timer = some tid) :
    (cancel_fade_on_main s wid).1.live_fade_timers =
      s.live_fade_timers.filter (fun p => p.1 ≠ tid) := by
  unfold cancel_fade_on_main; simp [h, hf]

theorem cancel_fade_fade_of_no_handle (s : NotifState) (wid : Nat)
    (h : s.windows wid = none ∨ ∃ w, s.windows wid = some w ∧ w.fade_timer = none) :
    (cancel_fade_on_main s wid).1.live_fade_timers = s.live_fade_timers := by
  unfold cancel_fade_on_main
  rcases h with h | ⟨w, h, hf⟩
  · simp [h]
  · simp [h, hf]

@[simp] theorem reschedule_active (s : NotifState) (wid : Nat) (t : Option ℚ) :
    (reschedule_fade_on_main s wid t).1.active_notification = s.active_notification := by
  unfold reschedule_fade_on_main
  cases h : s.windows wid with
  | none => rfl
  | some w => cases t <;> simp

@[simp] theorem reschedule_pending (s : NotifState) (wid : Nat) (t : Option ℚ) :
    (reschedule_fade_on_main s wid t).1.pending_notifications = s.pending_notifications := by
  unfold reschedule_fade_on_main
  cases h : s.windows wid with
  | none => rfl
  | some w => cases t <;> simp

@[simp] theorem reschedule_state (s : NotifState) (wid : Nat) (t : Option ℚ) :
    (reschedule_fade_on_main s wid t).1.current_state = s.current_state := by
  unfold reschedule_fade_on_main
  cases h : s.windows wid with
  | none => rfl
  | some w => cases t <;> simp

@[simp] theorem reschedule_start (s : NotifState) (wid : Nat) (t : Option ℚ) :
    (reschedule_fade_on_main s wid t).1.state_start_time = s.state_start_time := by
  unfold reschedule_fade_on_main
  cases h : s.windows wid with
  | none => rfl
  | some w => cases t <;> simp

@[simp] theorem reschedule_min (s : NotifState) (wid : Nat) (t : Option ℚ) :
    (reschedule_fade_on_main s wid t).1.min_display_timer = s.min_display_timer := by
  unfold reschedule_fade_on_main
  cases h : s.windows wid with
  | none => rfl
  | some w => cases t <;> simp

@[simp] theorem reschedule_shutting (s : NotifState) (wid : Nat) (t : Option ℚ) :
    (reschedule_fade_on_main s wid t).1.shutting_down = s.shutting_down := by
  unfold reschedule_fade_on_main
  cases h : s.windows wid with
  | none => rfl
  | some w => cases t <;> simp

@[simp] theorem reschedule_dwell (s : NotifState) (wid : Nat) (t : Option ℚ) :
    (reschedule_fade_on_main s wid t).1.live_dwell_timers = s.live_dwell_timers := by
  unfold reschedule_fade_on_main
  cases h : s.windows wid with
  | none => rfl
  | some w => cases t <;> simp

@[simp] theorem reschedule_completions (s : NotifState) (wid : Nat) (t : Option ℚ) :
    (reschedule_fade_on_main s wid t).1.pending_fade_completions =
      s.pending_fade_completions := by
  unfold reschedule_fade_on_main
  cases h : s.windows wid with
  | none => rfl
  | some w => cases t <;> simp

@[simp] theorem reschedule_next_window (s : NotifState) (wid : Nat) (t : Option ℚ) :
    (reschedule_fade_on_main s wid t).1.next_window_id = s.next_window_id := by
  unfold reschedule_fade_on_main
  cases h : s.windows wid with
  | none => rfl
  | some w => cases t <;> simp

theorem reschedule_some_windows_self (s : NotifState) (wid : Nat) (w : NotificationWindow)
    (q : ℚ) (h : s.windows wid = some w) :
    (reschedule_fade_on_main s wid (some q)).1.windows wid =
      some { w with fade_timer := some s.next_timer_id, fade_helper := true } := by
  unfold reschedule_fade_on_main
  simp [h, cancel_fade_windows]

theorem reschedule_some_windows_other (s : NotifState) (wid n : Nat) (t : Option ℚ)
    (hn : n ≠ wid) :
    (reschedule_fade_on_main s wid t).1.windows n = s.windows n := by
  unfold reschedule_fade_on_main
  cases h : s.windows wid with
  | none => rfl
  | some w =>
      cases t with
      | none => simp [cancel_fade_windows, hn]
      | some q => simp [cancel_fade_windows, hn]

theorem reschedule_some_fade (s : NotifState) (wid : Nat) (w : NotificationWindow) (q : ℚ)
    (h : s.windows wid = some w) :
    (reschedule_fade_on_main s wid (some q)).1.live_fade_timers =
      (s.next_timer_id, wid) :: (cancel_fade_on_main s wid).1.live_fade_timers := by
  unfold reschedule_fade_on_main
  simp [h]

theorem reschedule_some_next_timer (s : NotifState) (wid : Nat) (w : NotificationWindow)
    (q : ℚ) (h : s.windows wid = some w) :
    (reschedule_fade_on_main s wid (some q)).1.next_timer_id = s.next_timer_id + 1 := by
  unfold reschedule_fade_on_main
  simp [h]

theorem reschedule_some_effects (s : NotifState) (wid : Nat) (w : NotificationWindow) (q : ℚ)
    (h : s.windows wid = some w) :
    (reschedule_fade_on_main s wid (some q)).2 =
      (cancel_fade_on_main s wid).2 ++ [Effect.arm_fade s.next_timer_id q] := by
  unfold reschedule_fade_on_main
  simp [h]

theorem show_overlay_windows (s : NotifState) (title message : String) (timeout : Option ℚ)
    (hs : s.shutting_down = false) (n : Nat) :
    (show_overlay_window s title message timeout).1.windows n =
      if n = s.next_window_id then some (freshWindow s title message timeout)
      else s.windows n := by
  unfold show_overlay_window freshWindow; simp [hs]

theorem show_overlay_active (s : NotifState) (title message : String) (timeout : Option ℚ)
    (hs : s.shutting_down = false) :
    (show_overlay_window s title message timeout).1.active_notification =
      some s.next_window_id := by
  unfold show_overlay_window; simp [hs]

theorem show_overlay_pending (s : NotifState) (title message : String) (timeout : Option ℚ)
    (hs : s.shutting_down = false) :
    (show_overlay_window s title message timeout).1.pending_notifications =
      s.pending_notifications := by
  unfold show_overlay_window; simp [hs]

theorem show_overlay_state (s : NotifState) (title message : String) (timeout : Option ℚ)
    (hs : s.shutting_down = false) :
    (show_overlay_window s title message timeout).1.current_state = s.current_state := by
  unfold show_overlay_window; simp [hs]

theorem show_overlay_start (s : NotifState) (title message : String) (timeout : Option ℚ)
    (hs : s.shutting_down = false) :
    (show_overlay_window s title message timeout).1.state_start_time = s.state_start_time := by
  unfold show_overlay_window; simp [hs]

theorem show_overlay_min (s : NotifState) (title message : String) (timeout : Option ℚ)
    (hs : s.shutting_down = false) :
    (show_overlay_window s title message timeout).1.min_display_timer =
      s.min_display_timer := by
  unfold show_overlay_window; simp [hs]

theorem show_overlay_shutting (s : NotifState) (title message : String) (timeout : Option ℚ) :
    (show_overlay_window s title message timeout).1.shutting_down = s.shutting_down := by
  unfold show_overlay_window
  by_cases hs : s.shutting_down <;> simp [hs]

theorem show_overlay_dwell (s : NotifState) (title message : String) (timeout : Option ℚ) :
    (show_overlay_window s title message timeout).1.live_dwell_timers =
      s.live_dwell_timers := by
  unfold show_overlay_window
  by_cases hs : s.shutting_down <;> simp [hs]

theorem show_overlay_completions (s : NotifState) (title message : String)
    (timeout : Option ℚ) :
    (show_overlay_window s title message timeout).1.pending_fade_completions =
      s.pending_fade_completions := by
  unfold show_overlay_window
  by_cases hs : s.shutting_down <;> simp [hs]

theorem show_overlay_next_window (s : NotifState) (title message : String) (timeout : Option ℚ)
    (hs : s.shutting_down = false) :
    (show_overlay_window s title message timeout).1.next_window_id = s.next_window_id + 1 := by
  unfold show_overlay_window; simp [hs]

theorem show_overlay_next_timer (s : NotifState) (title message : String) (timeout : Option ℚ)
    (hs : s.shutting_down = false) :
    (show_overlay_window s title message timeout).1.next_timer_id =
      (if timeout.isSome then s.next_timer_id + 1 else s.next_timer_id) := by
  unfold show_overlay_window; simp [hs]

theorem show_overlay_fade_none (s : NotifState) (title message : String)
    (hs : s.shutting_down = false) :
    (show_overlay_window s title message none).1.live_fade_timers = s.live_fade_timers := by
  unfold show_overlay_window; simp [hs]

theorem show_overlay_fade_some (s : NotifState) (title message : String) (q : ℚ)
    (hs : s.shutting_down = false) :
    (show_overlay_window s title message (some q)).1.live_fade_timers =
      (s.next_timer_id, s.next_window_id) :: s.live_fade_timers := by
  unfold show_overlay_window; simp [hs]

theorem show_overlay_effects (s : NotifState) (title message : String) (timeout : Option ℚ)
    (hs : s.shutting_down = false) :
    (show_overlay_window s title message timeout).2 =
      [Effect.create_surface s.next_window_id, Effect.touch_surface s.next_window_id] ++
        (match timeout with
         | some q => [Effect.arm_fade s.next_timer_id q]
         | none => []) := by
  unfold show_overlay_window; simp [hs]

/-! ### The timer / surface bookkeeping invariant -/

theorem inv_init : Inv initState := by
  refine ⟨Or.inl rfl, Or.inl rfl, ?_, ?_, ?_, ?_, ?_, ?_, ?_⟩ <;>
    simp [initState]

/-- Before shutdown, while `_ACTIVE_NOTIFICATION` is `None`, no window is
still flagged active. -/
theorem no_active_flag_of_none (s : NotifState) (h : Inv s) (hs : s.shutting_down = false)
    (ha : s.active_notification = none) :
    ∀ w win, s.windows w = some win → win.notification_active = true → False := by
  intro w win hw hact
  have := h.active_unique w win hw hact hs
  rw [ha] at this
  exact Option.noConfusion this

/-- Before shutdown, while `_ACTIVE_NOTIFICATION` holds a window already
marked inactive, no window at all is still flagged active. -/
theorem no_active_flag_of_inactive (s : NotifState) (h : Inv s) (hs : s.shutting_down = false)
    (wid : Nat) (w0 : NotificationWindow) (ha : s.active_notification = some wid)
    (hw0 : s.windows wid = some w0) (hact0 : w0.notification_active = false) :
    ∀ w win, s.windows w = some win → win.notification_active = true → False := by
  intro w win hw hact
  have h1 := h.active_unique w win hw hact hs
  rw [ha] at h1
  have h2 : w = wid := by exact (Option.some.injEq _ _).mp h1.symm
  subst h2
  rw [hw0] at hw
  have : win = w0 := by exact (Option.some.injEq _ _).mp hw.symm
  subst this
  rw [hact0] at hact
  exact Bool.noConfusion hact

/-- If no window is flagged active, no fade timer is live. -/
theorem fade_empty_of_no_active (s : NotifState) (h : Inv s)
    (hno : ∀ w win, s.windows w = some win → win.notification_active = true → False) :
    s.live_fade_timers = [] := by
  rcases h.fade with hf | ⟨t, w, win, hl, hw, hft, hfa⟩
  · exact hf
  · exact absurd hfa (by intro hc; exact hno w win hw hc)

theorem inv_cancel_min (s : NotifState) (h : Inv s) : Inv (cancel_min_display_timer s).1 := by
  refine ⟨Or.inl (cancel_min_dwell_empty s h.dwell), ?_, ?_, ?_, ?_, ?_, ?_, ?_, ?_⟩
  · rcases h.fade with hf | ⟨t, w, win, hl, hw, hft, hfa⟩
    · exact Or.inl (by simp [hf])
    · exact Or.inr ⟨t, w, win, by simp [hl], by simp [hw], hft, hfa⟩
  · intro w win hw hact hsd
    simp at hw hsd ⊢
    exact h.active_unique w win hw hact hsd
  · intro hsd
    simp at hsd ⊢
    exact h.shutdown_active hsd
  · intro t ht; simp at ht
  · intro p hp
    simp at hp ⊢
    exact h.fade_fresh p hp
  · intro t ht
    simp at ht ⊢
    exact h.dwell_fresh t (cancel_min_dwell_sub s t ht)
  · intro w win t hw hft
    simp at hw ⊢
    exact h.win_fresh w win t hw hft
  · intro w1 w2 win1 win2 t hw1 hw2 h1 h2
    simp at hw1 hw2
    exact h.handle_unique w1 w2 win1 win2 t hw1 hw2 h1 h2

theorem inv_start_min (s : NotifState) (h : Inv s) : Inv (start_min_display_timer s).1 := by
  have hempty : (cancel_min_display_timer s).1.live_dwell_timers = [] :=
    cancel_min_dwell_empty s h.dwell
  refine ⟨?_, ?_, ?_, ?_, ?_, ?_, ?_, ?_, ?_⟩
  · refine Or.inr ⟨s.next_timer_id, ?_, by simp⟩
    rw [start_min_dwell, hempty]
  · rcases h.fade with hf | ⟨t, w, win, hl, hw, hft, hfa⟩
    · exact Or.inl (by simp [hf])
    · exact Or.inr ⟨t, w, win, by simp [hl], by simp [hw], hft, hfa⟩
  · intro w win hw hact hsd
    simp at hw hsd ⊢
    exact h.active_unique w win hw hact hsd
  · intro hsd
    simp at hsd ⊢
    exact h.shutdown_active hsd
  · intro t ht
    simp at ht ⊢
    omega
  · intro p hp
    simp at hp ⊢
    exact Nat.lt_succ_of_lt (h.fade_fresh p hp)
  · intro t ht
    rw [start_min_dwell, hempty] at ht
    simp at ht ⊢
    omega
  · intro w win t hw hft
    simp at hw ⊢
    exact Nat.lt_succ_of_lt (h.win_fresh w win t hw hft)
  · intro w1 w2 win1 win2 t hw1 hw2 h1 h2
    simp at hw1 hw2
    exact h.handle_unique w1 w2 win1 win2 t hw1 hw2 h1 h2

/-- Mutating window attributes other than `_fade_timer` and
`_notification_active` preserves the invariant. -/
theorem inv_setWindow_preserve (s : NotifState) (wid : Nat)
    (f : NotificationWindow → NotificationWindow)
    (hfade : ∀ v, (f v).fade_timer = v.fade_timer)
    (hact : ∀ v, (f v).notification_active = v.notification_active)
    (h : Inv s) : Inv (setWindow s wid f) := by
  have hlook : ∀ n win', (setWindow s wid f).windows n = some win' →
      ∃ win, s.windows n = some win ∧ win'.fade_timer = win.fade_timer ∧
        win'.notification_active = win.notification_active := by
    intro n win' hn
    rw [setWindow_windows] at hn
    by_cases he : n = wid
    · rw [if_pos he] at hn
      rcases Option.map_eq_some'.mp hn with ⟨win, hw, hfw⟩
      exact ⟨win, hw, by rw [← hfw, hfade], by rw [← hfw, hact]⟩
    · rw [if_neg he] at hn
      exact ⟨win', hn, rfl, rfl⟩
  refine ⟨by simpa using h.dwell, ?_, ?_, by simpa using h.shutdown_active,
    by simpa using h.handle_fresh, by simpa using h.fade_fresh,
    by simpa using h.dwell_fresh, ?_, ?_⟩
  · rcases h.fade with hf | ⟨t, w, win, hl, hw, hft, hfa⟩
    · exact Or.inl (by simpa using hf)
    · by_cases he : w = wid
      · subst he
        refine Or.inr ⟨t, w, f win, by simpa using hl, ?_, by rw [hfade]; exact hft,
          by rw [hact]; exact hfa⟩
        rw [setWindow_windows, if_pos rfl, hw]
        rfl
      · refine Or.inr ⟨t, w, win, by simpa using hl, ?_, hft, hfa⟩
        rw [setWindow_windows, if_neg he]
        exact hw
  · intro w win' hw hact' hsd
    rcases hlook w win' hw with ⟨win, hwin, _, hactw⟩
    rw [hactw] at hact'
    simp only [setWindow_shutting] at hsd
    simpa using h.active_unique w win hwin hact' hsd
  · intro w win' t hw hft
    rcases hlook w win' hw with ⟨win, hwin, hfw, _⟩
    rw [hfw] at hft
    simpa using h.win_fresh w win t hwin hft
  · intro w1 w2 win1' win2' t hw1 hw2 h1 h2
    rcases hlook w1 win1' hw1 with ⟨win1, hwin1, hf1, _⟩
    rcases hlook w2 win2' hw2 with ⟨win2, hwin2, hf2, _⟩
    rw [hf1] at h1
    rw [hf2] at h2
    exact h.handle_unique w1 w2 win1 win2 t hwin1 hwin2 h1 h2

theorem inv_cancel_fade (s : NotifState) (wid : Nat) (h : Inv s) :
    Inv (cancel_fade_on_main s wid).1 := by
  have hwlook : ∀ n win', (cancel_fade_on_main s wid).1.windows n = some win' →
      ∃ win, s.windows n = some win ∧
        win'.notification_active = win.notification_active ∧
        (∀ t, win'.fade_timer = some t → win.fade_timer = some t) := by
    intro n win' hn
    rw [cancel_fade_windows] at hn
    by_cases he : n = wid
    · rw [if_pos he] at hn
      rcases Option.map_eq_some'.mp hn with ⟨win, hwn, hfw⟩
      refine ⟨win, hwn, by rw [← hfw], fun t ht => absurd ht (by rw [← hfw]; simp)⟩
    · rw [if_neg he] at hn
      exact ⟨win', hn, rfl, fun t ht => ht⟩
  refine ⟨by simpa using h.dwell, ?_, ?_, by simpa using h.shutdown_active,
    by simpa using h.handle_fresh, ?_, by simpa using h.dwell_fresh, ?_, ?_⟩
  · rcases h.fade with hf | ⟨t, w0, win, hl, hw0, hft0, hfa0⟩
    · left
      refine List.eq_nil_iff_forall_not_mem.mpr fun p hp => ?_
      have := cancel_fade_fade_sub s wid p hp
      rw [hf] at this
      exact List.not_mem_nil p this
    · by_cases hww : w0 = wid
      · subst hww
        rw [cancel_fade_fade_of_handle s w0 win t hw0 hft0, hl]
        left; simp
      · have hwother : (cancel_fade_on_main s wid).1.windows w0 = some win := by
          rw [cancel_fade_windows, if_neg hww]; exact hw0
        rcases hcase : s.windows wid with _ | w
        · rw [cancel_fade_fade_of_no_handle s wid (Or.inl hcase)]
          exact Or.inr ⟨t, w0, win, hl, hwother, hft0, hfa0⟩
        · rcases hft : w.fade_timer with _ | tid
          · rw [cancel_fade_fade_of_no_handle s wid (Or.inr ⟨w, hcase, hft⟩)]
            exact Or.inr ⟨t, w0, win, hl, hwother, hft0, hfa0⟩
          · have htne : t ≠ tid := by
              intro hc
              subst hc
              exact hww (h.handle_unique w0 wid win w t hw0 hcase hft0 hft)
            rw [cancel_fade_fade_of_handle s wid w tid hcase hft, hl]
            refine Or.inr ⟨t, w0, win, ?_, hwother, hft0, hfa0⟩
            simp [htne]
  · intro w win' hwn hact hsd
    rcases hwlook w win' hwn with ⟨win, hwin, hactw, _⟩
    rw [hactw] at hact
    simp only [cancel_fade_shutting] at hsd
    simpa using h.active_unique w win hwin hact hsd
  · intro p hp
    simp only [cancel_fade_next_timer]
    exact h.fade_fresh p (cancel_fade_fade_sub s wid p hp)
  · intro w win' t hwn hft
    rcases hwlook w win' hwn with ⟨win, hwin, _, hfw⟩
    simp only [cancel_fade_next_timer]
    exact h.win_fresh w win t hwin (hfw t hft)
  · intro w1 w2 win1' win2' t hw1 hw2 h1 h2
    rcases hwlook w1 win1' hw1 with ⟨win1, hwin1, _, hf1⟩
    rcases hwlook w2 win2' hw2 with ⟨win2, hwin2, _, hf2⟩
    exact h.handle_unique w1 w2 win1 win2 t hwin1 hwin2 (hf1 t h1) (hf2 t h2)

theorem inv_update_text (s : NotifState) (m : String) (h : Inv s) :
    Inv (update_active_notification_text_on_main s m).1 := by
  unfold update_active_notification_text_on_main
  cases ha : s.active_notification with
  | none => exact h
  | some wid => exact inv_setWindow_preserve s wid _ (fun v => rfl) (fun v => rfl) h

/-- After `_cancel_fade_on_main` on the window the live fade timer belongs to
(before shutdown this is the active window), no live fade timer remains. -/
theorem cancel_fade_live_empty (s : NotifState) (wid : Nat) (h : Inv s)
    (hs : s.shutting_down = false) (ha : s.active_notification = some wid) :
    (cancel_fade_on_main s wid).1.live_fade_timers = [] := by
  rcases h.fade with hf | ⟨t, w0, win, hl, hw0, hft0, hfa0⟩
  · refine List.eq_nil_iff_forall_not_mem.mpr fun p hp => ?_
    have := cancel_fade_fade_sub s wid p hp
    rw [hf] at this
    exact List.not_mem_nil p this
  · have hww : w0 = wid := by
      have := h.active_unique w0 win hw0 hfa0 hs
      rw [ha] at this
      exact Option.some.inj this.symm
    subst hww
    rw [cancel_fade_fade_of_handle s w0 win t hw0 hft0, hl]
    simp

theorem inv_reschedule (s : NotifState) (wid : Nat) (t : Option ℚ) (h : Inv s)
    (hs : s.shutting_down = false) (ha : s.active_notification = some wid)
    (hflag : ∀ w, s.windows wid = some w → w.notification_active = true) :
    Inv (reschedule_fade_on_main s wid t).1 := by
  rcases hcase : s.windows wid with _ | w
  · unfold reschedule_fade_on_main
    rw [hcase]
    exact h
  · cases t with
    | none =>
        unfold reschedule_fade_on_main
        rw [hcase]
        exact inv_cancel_fade s wid h
    | some q =>
        have hempty := cancel_fade_live_empty s wid h hs ha
        have hwself := reschedule_some_windows_self s wid w q hcase
        have hwother := fun n (hn : n ≠ wid) => reschedule_some_windows_other s wid n (some q) hn
        have hfade := reschedule_some_fade s wid w q hcase
        have hnt := reschedule_some_next_timer s wid w q hcase
        rw [hempty] at hfade
        have hwlook : ∀ n win', (reschedule_fade_on_main s wid (some q)).1.windows n =
            some win' → ∃ win, s.windows n = some win ∧
              win'.notification_active = win.notification_active ∧
              (∀ u, win'.fade_timer = some u →
                (n = wid ∧ u = s.next_timer_id) ∨ (n ≠ wid ∧ win.fade_timer = some u)) := by
          intro n win' hn
          by_cases he : n = wid
          · subst he
            rw [hwself] at hn
            replace hn := Option.some.inj hn
            exact ⟨w, hcase, by rw [← hn], fun u hu => by
              rw [← hn] at hu
              simp at hu
              exact Or.inl ⟨rfl, hu.symm⟩⟩
          · rw [hwother n he] at hn
            exact ⟨win', hn, rfl, fun u hu => Or.inr ⟨he, hu⟩⟩
        refine ⟨?_, ?_, ?_, ?_, ?_, ?_, ?_, ?_, ?_⟩
        · simpa using h.dwell
        · refine Or.inr ⟨s.next_timer_id, wid,
            { w with fade_timer := some s.next_timer_id, fade_helper := true },
            hfade, hwself, rfl, ?_⟩
          exact hflag w hcase
        · intro n win' hn hact hsd
          rcases hwlook n win' hn with ⟨win, hwin, hactw, _⟩
          rw [hactw] at hact
          simp only [reschedule_shutting] at hsd
          simpa using h.active_unique n win hwin hact hsd
        · intro hsd
          simp only [reschedule_shutting] at hsd
          rw [hs] at hsd
          exact absurd hsd (by simp)
        · intro u hu
          simp only [reschedule_min] at hu
          rw [hnt]
          exact Nat.lt_succ_of_lt (h.handle_fresh u hu)
        · intro p hp
          rw [hfade] at hp
          rw [hnt]
          rcases List.mem_singleton.mp hp with rfl
          exact Nat.lt_succ_self _
        · intro u hu
          simp only [reschedule_dwell] at hu
          rw [hnt]
          exact Nat.lt_succ_of_lt (h.dwell_fresh u hu)
        · intro n win' u hn hft
          rcases hwlook n win' hn with ⟨win, hwin, _, hfw⟩
          rw [hnt]
          rcases hfw u hft with ⟨_, hu⟩ | ⟨_, hold⟩
          · omega
          · exact Nat.lt_succ_of_lt (h.win_fresh n win u hwin hold)
        · intro n1 n2 win1' win2' u hn1 hn2 h1 h2
          rcases hwlook n1 win1' hn1 with ⟨win1, hwin1, _, hf1⟩
          rcases hwlook n2 win2' hn2 with ⟨win2, hwin2, _, hf2⟩
          rcases hf1 u h1 with ⟨he1, hu1⟩ | ⟨he1, hold1⟩
          · rcases hf2 u h2 with ⟨he2, hu2⟩ | ⟨he2, hold2⟩
            · rw [he1, he2]
            · have := h.win_fresh n2 win2 u hwin2 hold2
              omega
          · rcases hf2 u h2 with ⟨he2, hu2⟩ | ⟨he2, hold2⟩
            · have := h.win_fresh n1 win1 u hwin1 hold1
              omega
            · exact h.handle_unique n1 n2 win1 win2 u hwin1 hwin2 hold1 hold2

theorem inv_show_overlay (s : NotifState) (title message : String) (timeout : Option ℚ)
    (h : Inv s) (hs : s.shutting_down = false)
    (hno : ∀ w win, s.windows w = some win → win.notification_active = true → False) :
    Inv (show_overlay_window s title message timeout).1 := by
  have hempty := fade_empty_of_no_active s h hno
  have hnt := show_overlay_next_timer s title message timeout hs
  have hle : s.next_timer_id ≤ (show_overlay_window s title message timeout).1.next_timer_id := by
    rw [hnt]; cases timeout <;> simp
  refine ⟨?_, ?_, ?_, ?_, ?_, ?_, ?_, ?_, ?_⟩
  · rw [show_overlay_dwell, show_overlay_min s title message timeout hs]
    exact h.dwell
  · cases timeout with
    | none => rw [show_overlay_fade_none s title message hs, hempty]; exact Or.inl rfl
    | some q =>
        refine Or.inr ⟨s.next_timer_id, s.next_window_id,
          freshWindow s title message (some q), ?_, ?_, ?_, rfl⟩
        · rw [show_overlay_fade_some s title message q hs, hempty]
        · rw [show_overlay_windows s title message (some q) hs, if_pos rfl]
        · simp [freshWindow]
  · intro n win' hn hact hsd
    rw [show_overlay_windows s title message timeout hs] at hn
    by_cases he : n = s.next_window_id
    · rw [show_overlay_active s title message timeout hs, he]
    · rw [if_neg he] at hn
      exact absurd hact (by intro hc; exact hno n win' hn hc)
  · intro hsd
    rw [show_overlay_shutting, hs] at hsd
    exact absurd hsd (by simp)
  · intro u hu
    rw [show_overlay_min s title message timeout hs] at hu
    exact lt_of_lt_of_le (h.handle_fresh u hu) hle
  · intro p hp
    cases timeout with
    | none =>
        rw [show_overlay_fade_none s title message hs, hempty] at hp
        exact absurd hp (List.not_mem_nil p)
    | some q =>
        rw [show_overlay_fade_some s title message q hs, hempty] at hp
        rcases List.mem_singleton.mp hp with rfl
        rw [hnt]
        simp
  · intro u hu
    rw [show_overlay_dwell] at hu
    exact lt_of_lt_of_le (h.dwell_fresh u hu) hle
  · intro n win' u hn hft
    rw [show_overlay_windows s title message timeout hs] at hn
    by_cases he : n = s.next_window_id
    · rw [if_pos he] at hn
      replace hn := Option.some.inj hn
      rw [← hn] at hft
      simp only [freshWindow] at hft
      cases timeout with
      | none => exact absurd hft (by simp)
      | some q =>
          simp at hft
          rw [hnt, ← hft]
          simp
    · rw [if_neg he] at hn
      exact lt_of_lt_of_le (h.win_fresh n win' u hn hft) hle
  · intro n1 n2 win1' win2' u hn1 hn2 h1 h2
    rw [show_overlay_windows s title message timeout hs] at hn1 hn2
    by_cases he1 : n1 = s.next_window_id <;> by_cases he2 : n2 = s.next_window_id
    · rw [he1, he2]
    · rw [if_pos he1] at hn1
      rw [if_neg he2] at hn2
      replace hn1 := Option.some.inj hn1
      rw [← hn1] at h1
      simp only [freshWindow] at h1
      cases timeout with
      | none => exact absurd h1 (by simp)
      | some q =>
          simp at h1
          have := h.win_fresh n2 win2' u hn2 h2
          omega
    · rw [if_neg he1] at hn1
      rw [if_pos he2] at hn2
      replace hn2 := Option.some.inj hn2
      rw [← hn2] at h2
      simp only [freshWindow] at h2
      cases timeout with
      | none => exact absurd h2 (by simp)
      | some q =>
          simp at h2
          have := h.win_fresh n1 win1' u hn1 h1
          omega
    · rw [if_neg he1] at hn1
      rw [if_neg he2] at hn2
      exact h.handle_unique n1 n2 win1' win2' u hn1 hn2 h1 h2

theorem inv_set_pending (s : NotifState) (l : List (String × String × Option ℚ)) (h : Inv s) :
    Inv { s with pending_notifications := l } :=
  ⟨h.dwell, h.fade, h.active_unique, h.shutdown_active, h.handle_fresh, h.fade_fresh,
    h.dwell_fresh, h.win_fresh, h.handle_unique⟩

theorem inv_set_state (s : NotifState) (st : NotificationState) (q : ℚ) (h : Inv s) :
    Inv { s with current_state := st, state_start_time := q } :=
  ⟨h.dwell, h.fade, h.active_unique, h.shutdown_active, h.handle_fresh, h.fade_fresh,
    h.dwell_fresh, h.win_fresh, h.handle_unique⟩

@[simp] theorem update_text_active (s : NotifState) (m : String) :
    (update_active_notification_text_on_main s m).1.active_notification =
      s.active_notification := by
  unfold update_active_notification_text_on_main
  cases ha : s.active_notification <;> simp [ha]

@[simp] theorem update_text_pending (s : NotifState) (m : String) :
    (update_active_notification_text_on_main s m).1.pending_notifications =
      s.pending_notifications := by
  unfold update_active_notification_text_on_main
  cases ha : s.active_notification <;> simp [ha]

@[simp] theorem update_text_state (s : NotifState) (m : String) :
    (update_active_notification_text_on_main s m).1.current_state = s.current_state := by
  unfold update_active_notification_text_on_main
  cases ha : s.active_notification <;> simp [ha]

@[simp] theorem update_text_start (s : NotifState) (m : String) :
    (update_active_notification_text_on_main s m).1.state_start_time = s.state_start_time := by
  unfold update_active_notification_text_on_main
  cases ha : s.active_notification <;> simp [ha]

@[simp] theorem update_text_min (s : NotifState) (m : String) :
    (update_active_notification_text_on_main s m).1.min_display_timer =
      s.min_display_timer := by
  unfold update_active_notification_text_on_main
  cases ha : s.active_notification <;> simp [ha]

@[simp] theorem update_text_shutting (s : NotifState) (m : String) :
    (update_active_notification_text_on_main s m).1.shutting_down = s.shutting_down := by
  unfold update_active_notification_text_on_main
  cases ha : s.active_notification <;> simp [ha]

@[simp] theorem update_text_fade (s : NotifState) (m : String) :
    (update_active_notification_text_on_main s m).1.live_fade_timers =
      s.live_fade_timers := by
  unfold update_active_notification_text_on_main
  cases ha : s.active_notification <;> simp [ha]

@[simp] theorem update_text_dwell (s : NotifState) (m : String) :
    (update_active_notification_text_on_main s m).1.live_dwell_timers =
      s.live_dwell_timers := by
  unfold update_active_notification_text_on_main
  cases ha : s.active_notification <;> simp [ha]

@[simp] theorem update_text_completions (s : NotifState) (m : String) :
    (update_active_notification_text_on_main s m).1.pending_fade_completions =
      s.pending_fade_completions := by
  unfold update_active_notification_text_on_main
  cases ha : s.active_notification <;> simp [ha]

@[simp] theorem update_text_next_timer (s : NotifState) (m : String) :
    (update_active_notification_text_on_main s m).1.next_timer_id = s.next_timer_id := by
  unfold update_active_notification_text_on_main
  cases ha : s.active_notification <;> simp [ha]

@[simp] theorem update_text_next_window (s : NotifState) (m : String) :
    (update_active_notification_text_on_main s m).1.next_window_id = s.next_window_id := by
  unfold update_active_notification_text_on_main
  cases ha : s.active_notification <;> simp [ha]

theorem update_text_windows_of_active (s : NotifState) (m : String) (wid : Nat)
    (ha : s.active_notification = some wid) (n : Nat) :
    (update_active_notification_text_on_main s m).1.windows n =
      if n = wid then (s.windows n).map (fun v => { v with text := m }) else s.windows n := by
  unfold update_active_notification_text_on_main
  rw [ha]
  simp [setWindow_windows]

theorem inv_dequeue (s : NotifState) (h : Inv s) : Inv (dequeue_and_show_next s).1 := by
  unfold dequeue_and_show_next
  by_cases hsd : s.shutting_down = true
  · simp only [hsd, if_true]
    exact h
  · replace hsd : s.shutting_down = false := by
      cases hcc : s.shutting_down
      · rfl
      · exact absurd hcc hsd
    by_cases hact : s.active_notification.isSome = true
    · simp only [hsd, hact, if_true, if_false, Bool.false_eq_true]
      exact h
    · have hnone : s.active_notification = none := Option.not_isSome_iff_eq_none.mp hact
      cases hp : s.pending_notifications with
      | nil =>
          simp only [hsd, hact, hp, if_false, Bool.false_eq_true]
          exact h
      | cons head rest =>
          obtain ⟨ti, m, tmo⟩ := head
          simp only [hsd, hact, hp, if_false, Bool.false_eq_true]
          have h2 := inv_set_pending s rest h
          rw [hsd] at h2
          refine inv_show_overlay _ ti m tmo h2 rfl ?_
          intro w win hw hc
          exact no_active_flag_of_none s h hsd hnone w win hw hc

theorem inv_show_main (s : NotifState) (ti m : String) (tmo : Option ℚ) (h : Inv s) :
    Inv (show_notification_on_main s ti m tmo).1 := by
  unfold show_notification_on_main
  exact inv_dequeue _ (inv_set_pending s _ h)

/-- Before shutdown, while `_ACTIVE_NOTIFICATION` points at a window id that
has no stored window, no window is flagged active. (Unreachable in practice;
needed tmo make the case analysis total.) -/
theorem no_active_flag_of_missing (s : NotifState) (h : Inv s) (hs : s.shutting_down = false)
    (wid : Nat) (ha : s.active_notification = some wid) (hw0 : s.windows wid = none) :
    ∀ w win, s.windows w = some win → win.notification_active = true → False := by
  intro w win hw hact
  have h1 := h.active_unique w win hw hact hs
  rw [ha] at h1
  have h2 : w = wid := Option.some.inj h1.symm
  subst h2
  rw [hw0] at hw
  exact Option.noConfusion hw

theorem inv_present_create (s : NotifState) (m : String) (tmo : Option ℚ) (h : Inv s)
    (hs : s.shutting_down = false)
    (hno : ∀ w win, s.windows w = some win → win.notification_active = true → False) :
    Inv (present_create_branch s m tmo).1 := by
  unfold present_create_branch
  have h1 : Inv (show_overlay_window s notificationTitle m tmo).1 :=
    inv_show_overlay s notificationTitle m tmo h hs hno
  cases tmo with
  | some q => exact h1
  | none =>
      rcases hact : (show_overlay_window s notificationTitle m none).1.active_notification
        with _ | wid2
      · simp only [hact]
        exact h1
      · simp only [hact]
        exact inv_cancel_fade _ wid2 h1

theorem inv_present (s : NotifState) (m : String) (tmo : Option ℚ) (h : Inv s) :
    Inv (present_or_update_notification_on_main s m tmo).1 := by
  unfold present_or_update_notification_on_main
  by_cases hsd : s.shutting_down = true
  · simp only [hsd, if_true]
    exact h
  · replace hsd : s.shutting_down = false := by
      cases hcc : s.shutting_down
      · rfl
      · exact absurd hcc hsd
    rw [hsd]
    simp only [Bool.false_eq_true, if_false]
    cases ha : s.active_notification with
    | none =>
        simp only [ha]
        exact inv_present_create s m tmo h hsd (no_active_flag_of_none s h hsd ha)
    | some wid =>
        simp only [ha]
        cases hw : s.windows wid with
        | none =>
            simp only [hw]
            exact inv_present_create s m tmo h hsd
              (no_active_flag_of_missing s h hsd wid ha hw)
        | some w =>
            simp only [hw]
            by_cases hfa : w.notification_active = true
            · simp only [hfa, if_true]
              have h1 : Inv (update_active_notification_text_on_main s m).1 :=
                inv_update_text s m h
              cases tmo with
              | none => exact inv_cancel_fade _ wid h1
              | some q =>
                  refine inv_reschedule _ wid (some q) h1 (by simp [hsd]) (by simp [ha]) ?_
                  intro w' hw'
                  rw [update_text_windows_of_active s m wid ha wid, if_pos rfl, hw] at hw'
                  replace hw' := Option.some.inj hw'
                  rw [← hw']
                  exact hfa
            · replace hfa : w.notification_active = false := by
                cases hcc : w.notification_active
                · rfl
                · exact absurd hcc hfa
              simp only [hfa, Bool.false_eq_true, if_false]
              exact inv_present_create s m tmo h hsd
                (no_active_flag_of_inactive s h hsd wid w ha hw hfa)

theorem close_none_target (s : NotifState) (wid : Nat) (hw : s.windows wid = none) :
    close_notification_window s (some wid) = (s, [], false) := by
  unfold close_notification_window
  simp [hw]

theorem close_inactive (s : NotifState) (wid : Nat) (w : NotificationWindow)
    (hw : s.windows wid = some w) (hfa : w.notification_active = false) :
    close_notification_window s (some wid) = (s, [], false) := by
  unfold close_notification_window
  simp [hw, hfa]

theorem close_active_ret (s : NotifState) (wid : Nat) (w : NotificationWindow)
    (hw : s.windows wid = some w) (hfa : w.notification_active = true) :
    (close_notification_window s (some wid)).2.2 = true := by
  unfold close_notification_window
  by_cases hsd : (setWindow (setWindow (cancel_fade_on_main
      (setWindow s wid (fun v => { v with notification_active := false })) wid).1 wid
      (fun v => { v with fade_helper := false })) wid
      (fun v => { v with ns_window := false })).shutting_down = true <;>
    simp [hw, hfa]

theorem close_active_active (s : NotifState) (wid : Nat) (w : NotificationWindow)
    (hw : s.windows wid = some w) (hfa : w.notification_active = true) :
    (close_notification_window s (some wid)).1.active_notification = none := by
  unfold close_notification_window
  simp only [hw, hfa, if_true]
  by_cases hsd : s.shutting_down = true <;> simp [hsd]

theorem close_active_state (s : NotifState) (wid : Nat) (w : NotificationWindow)
    (hw : s.windows wid = some w) (hfa : w.notification_active = true) :
    (close_notification_window s (some wid)).1.current_state = NotificationState.idle := by
  unfold close_notification_window
  simp only [hw, hfa, if_true]
  by_cases hsd : s.shutting_down = true <;> simp [hsd]

theorem close_active_start (s : NotifState) (wid : Nat) (w : NotificationWindow)
    (hw : s.windows wid = some w) (hfa : w.notification_active = true) :
    (close_notification_window s (some wid)).1.state_start_time = 0 := by
  unfold close_notification_window
  simp only [hw, hfa, if_true]
  by_cases hsd : s.shutting_down = true <;> simp [hsd]

theorem close_active_min (s : NotifState) (wid : Nat) (w : NotificationWindow)
    (hw : s.windows wid = some w) (hfa : w.notification_active = true) :
    (close_notification_window s (some wid)).1.min_display_timer = none := by
  unfold close_notification_window
  simp only [hw, hfa, if_true]
  by_cases hsd : s.shutting_down = true <;> simp [hsd]

theorem close_active_shutting (s : NotifState) (wid : Nat) (w : NotificationWindow)
    (hw : s.windows wid = some w) (hfa : w.notification_active = true) :
    (close_notification_window s (some wid)).1.shutting_down = s.shutting_down := by
  unfold close_notification_window
  simp only [hw, hfa, if_true]
  by_cases hsd : s.shutting_down = true <;> simp [hsd]

theorem close_active_pending (s : NotifState) (wid : Nat) (w : NotificationWindow)
    (hw : s.windows wid = some w) (hfa : w.notification_active = true) :
    (close_notification_window s (some wid)).1.pending_notifications =
      s.pending_notifications := by
  unfold close_notification_window
  simp only [hw, hfa, if_true]
  by_cases hsd : s.shutting_down = true <;> simp [hsd]

theorem close_active_completions (s : NotifState) (wid : Nat) (w : NotificationWindow)
    (hw : s.windows wid = some w) (hfa : w.notification_active = true) :
    (close_notification_window s (some wid)).1.pending_fade_completions =
      s.pending_fade_completions := by
  unfold close_notification_window
  simp only [hw, hfa, if_true]
  by_cases hsd : s.shutting_down = true <;> simp [hsd]

theorem close_active_next_timer (s : NotifState) (wid : Nat) (w : NotificationWindow)
    (hw : s.windows wid = some w) (hfa : w.notification_active = true) :
    (close_notification_window s (some wid)).1.next_timer_id = s.next_timer_id := by
  unfold close_notification_window
  simp only [hw, hfa, if_true]
  by_cases hsd : s.shutting_down = true <;> simp [hsd]

theorem close_active_next_window (s : NotifState) (wid : Nat) (w : NotificationWindow)
    (hw : s.windows wid = some w) (hfa : w.notification_active = true) :
    (close_notification_window s (some wid)).1.next_window_id = s.next_window_id := by
  unfold close_notification_window
  simp only [hw, hfa, if_true]
  by_cases hsd : s.shutting_down = true <;> simp [hsd]

theorem bool_eq_false {b : Bool} (h : ¬ b = true) : b = false := by
  cases b
  · rfl
  · exact absurd rfl h

theorem close_active_dwell_sub (s : NotifState) (wid : Nat) (w : NotificationWindow)
    (hw : s.windows wid = some w) (hfa : w.notification_active = true) :
    ∀ t ∈ (close_notification_window s (some wid)).1.live_dwell_timers,
      t ∈ s.live_dwell_timers := by
  unfold close_notification_window
  simp only [hw, hfa, if_true]
  by_cases hsd : s.shutting_down = true
  · simp only [setWindow_shutting, cancel_fade_shutting, hsd, if_true]
    intro t ht
    have ht' := cancel_min_dwell_sub _ t ht
    simpa using ht'
  · simp only [setWindow_shutting, cancel_fade_shutting, bool_eq_false hsd,
      Bool.false_eq_true, if_false]
    intro t ht
    have ht' := cancel_min_dwell_sub _ t ht
    simpa using ht'

theorem close_active_windows_self (s : NotifState) (wid : Nat) (w : NotificationWindow)
    (hw : s.windows wid = some w) (hfa : w.notification_active = true)
    (hs : s.shutting_down = false) :
    (close_notification_window s (some wid)).1.windows wid =
      some { w with notification_active := false, fade_timer := none,
                    fade_helper := false, ns_window := false } := by
  unfold close_notification_window
  simp only [hw, hfa, if_true, setWindow_shutting, cancel_fade_shutting, hs,
    Bool.false_eq_true, if_false]
  simp [cancel_fade_windows, hw]

theorem close_active_windows_self_flag (s : NotifState) (wid : Nat) (w : NotificationWindow)
    (hw : s.windows wid = some w) (hfa : w.notification_active = true) :
    ∃ win', (close_notification_window s (some wid)).1.windows wid = some win' ∧
      win'.notification_active = false ∧ win'.fade_timer = none := by
  unfold close_notification_window
  by_cases hsd : s.shutting_down = true
  · simp only [hw, hfa, if_true, setWindow_shutting, cancel_fade_shutting, hsd]
    refine ⟨({ w with notification_active := false, fade_timer := none, fade_helper := false }), ?_, rfl, rfl⟩
    simp [cancel_fade_windows, hw]
  · simp only [hw, hfa, if_true, setWindow_shutting, cancel_fade_shutting,
      bool_eq_false hsd, Bool.false_eq_true, if_false]
    refine ⟨({ w with notification_active := false, fade_timer := none, fade_helper := false, ns_window := false }), ?_, rfl, rfl⟩
    simp [cancel_fade_windows, hw]

theorem close_active_windows_other (s : NotifState) (wid : Nat) (w : NotificationWindow)
    (hw : s.windows wid = some w) (hfa : w.notification_active = true) (n : Nat)
    (hn : n ≠ wid) :
    (close_notification_window s (some wid)).1.windows n = s.windows n := by
  unfold close_notification_window
  by_cases hsd : s.shutting_down = true
  · simp only [hw, hfa, if_true, setWindow_shutting, cancel_fade_shutting, hsd]
    simp [cancel_fade_windows, hn]
  · simp only [hw, hfa, if_true, setWindow_shutting, cancel_fade_shutting,
      bool_eq_false hsd, Bool.false_eq_true, if_false]
    simp [cancel_fade_windows, hn]

theorem close_active_fade_handle (s : NotifState) (wid : Nat) (w : NotificationWindow)
    (t : Nat) (hw : s.windows wid = some w) (hfa : w.notification_active = true)
    (hft : w.fade_timer = some t) :
    (close_notification_window s (some wid)).1.live_fade_timers =
      s.live_fade_timers.filter (fun p => p.1 ≠ t) := by
  unfold close_notification_window
  have hu1 : (setWindow s wid (fun v => { v with notification_active := false })).windows wid
      = some { w with notification_active := false } := by
    simp [hw]
  have hcf := cancel_fade_fade_of_handle
    (setWindow s wid (fun v => { v with notification_active := false })) wid
    { w with notification_active := false } t hu1 hft
  by_cases hsd : s.shutting_down = true
  · simp only [hw, hfa, if_true, setWindow_shutting, cancel_fade_shutting, hsd, if_true]
    simpa using hcf
  · simp only [hw, hfa, if_true, setWindow_shutting, cancel_fade_shutting,
      bool_eq_false hsd, Bool.false_eq_true, if_false]
    simpa using hcf

theorem close_active_fade_no_handle (s : NotifState) (wid : Nat) (w : NotificationWindow)
    (hw : s.windows wid = some w) (hfa : w.notification_active = true)
    (hft : w.fade_timer = none) :
    (close_notification_window s (some wid)).1.live_fade_timers = s.live_fade_timers := by
  unfold close_notification_window
  have hu1 : (setWindow s wid (fun v => { v with notification_active := false })).windows wid
      = some { w with notification_active := false } := by
    simp [hw]
  have hcf := cancel_fade_fade_of_no_handle
    (setWindow s wid (fun v => { v with notification_active := false })) wid
    (Or.inr ⟨{ w with notification_active := false }, hu1, hft⟩)
  by_cases hsd : s.shutting_down = true
  · simp only [hw, hfa, if_true, setWindow_shutting, cancel_fade_shutting, hsd, if_true]
    simpa using hcf
  · simp only [hw, hfa, if_true, setWindow_shutting, cancel_fade_shutting,
      bool_eq_false hsd, Bool.false_eq_true, if_false]
    simpa using hcf

theorem close_active_fade_sub (s : NotifState) (wid : Nat) (w : NotificationWindow)
    (hw : s.windows wid = some w) (hfa : w.notification_active = true) :
    ∀ p ∈ (close_notification_window s (some wid)).1.live_fade_timers,
      p ∈ s.live_fade_timers := by
  intro p hp
  rcases hft : w.fade_timer with _ | t
  · rw [close_active_fade_no_handle s wid w hw hfa hft] at hp
    exact hp
  · rw [close_active_fade_handle s wid w t hw hfa hft] at hp
    exact List.mem_of_mem_filter hp

theorem close_active_dwell_empty (s : NotifState) (wid : Nat) (w : NotificationWindow)
    (hw : s.windows wid = some w) (hfa : w.notification_active = true)
    (hd : s.live_dwell_timers = [] ∨
      ∃ t, s.live_dwell_timers = [t] ∧ s.min_display_timer = some t) :
    (close_notification_window s (some wid)).1.live_dwell_timers = [] := by
  unfold close_notification_window
  by_cases hsd : s.shutting_down = true
  · simp only [hw, hfa, if_true, setWindow_shutting, cancel_fade_shutting, hsd, if_true]
    refine cancel_min_dwell_empty _ ?_
    simpa using hd
  · simp only [hw, hfa, if_true, setWindow_shutting, cancel_fade_shutting,
      bool_eq_false hsd, Bool.false_eq_true, if_false]
    refine cancel_min_dwell_empty _ ?_
    simpa using hd

theorem close_active_effect_shapes (s : NotifState) (wid : Nat) (w : NotificationWindow)
    (hw : s.windows wid = some w) (hfa : w.notification_active = true) :
    ∀ eff ∈ (close_notification_window s (some wid)).2.1,
      (∃ t, eff = Effect.invalidate_fade t) ∨ eff = Effect.touch_surface wid ∨
      (∃ t, eff = Effect.cancel_dwell t) := by
  have hshape2 : ∀ s' w', ∀ eff ∈ (cancel_fade_on_main s' w').2,
      ∃ t, eff = Effect.invalidate_fade t := by
    intro s' w' eff heff
    unfold cancel_fade_on_main at heff
    rcases hw' : s'.windows w' with _ | v
    · rw [hw'] at heff
      exact absurd heff (List.not_mem_nil eff)
    · rcases hft : v.fade_timer with _ | t
      · simp [hw', hft] at heff
      · simp [hw', hft] at heff
        exact ⟨t, heff⟩
  have hshape6 : ∀ s', ∀ eff ∈ (cancel_min_display_timer s').2,
      ∃ t, eff = Effect.cancel_dwell t := by
    intro s' eff heff
    unfold cancel_min_display_timer at heff
    rcases hm : s'.min_display_timer with _ | t
    · rw [hm] at heff
      exact absurd heff (List.not_mem_nil eff)
    · simp [hm] at heff
      exact ⟨t, heff⟩
  unfold close_notification_window
  by_cases hsd : s.shutting_down = true
  · simp [hw, hfa, hsd]
    intro eff heff
    rcases heff with heff | heff
    · exact Or.inl (hshape2 _ _ eff heff)
    · exact Or.inr (Or.inr (hshape6 _ eff heff))
  · simp [hw, hfa, bool_eq_false hsd]
    intro eff heff
    rcases heff with heff | heff | heff
    · exact Or.inl (hshape2 _ _ eff heff)
    · exact Or.inr (Or.inl heff)
    · exact Or.inr (Or.inr (hshape6 _ eff heff))

theorem inv_close (s : NotifState) (wid : Nat) (h : Inv s)
    (hs : s.shutting_down = false) :
    Inv (close_notification_window s (some wid)).1 := by
  rcases hw : s.windows wid with _ | w
  · rw [close_none_target s wid hw]
    exact h
  · by_cases hfa : w.notification_active = true
    · have hwself := close_active_windows_self s wid w hw hfa hs
      have hwother := close_active_windows_other s wid w hw hfa
      have hfadeempty : (close_notification_window s (some wid)).1.live_fade_timers = [] := by
        rcases h.fade with hf | ⟨t, w0, win, hl, hw0, hft0, hfa0⟩
        · rcases hft : w.fade_timer with _ | t
          · rw [close_active_fade_no_handle s wid w hw hfa hft, hf]
          · rw [close_active_fade_handle s wid w t hw hfa hft, hf]
            rfl
        · have hww : w0 = wid := by
            have h1 := h.active_unique w0 win hw0 hfa0 hs
            have h2 := h.active_unique wid w hw hfa hs
            rw [h2] at h1
            exact Option.some.inj h1.symm
          subst hww
          have hwin : win = w := by
            rw [hw] at hw0
            exact (Option.some.inj hw0).symm
          subst hwin
          rw [close_active_fade_handle s w0 win t hw hfa hft0, hl]
          simp
      refine ⟨?_, ?_, ?_, ?_, ?_, ?_, ?_, ?_, ?_⟩
      · exact Or.inl (close_active_dwell_empty s wid w hw hfa h.dwell)
      · exact Or.inl hfadeempty
      · intro n win' hn hact hsd
        by_cases he : n = wid
        · subst he
          rw [hwself] at hn
          replace hn := Option.some.inj hn
          rw [← hn] at hact
          exact absurd hact (by simp)
        · rw [hwother n he] at hn
          have h1 := h.active_unique n win' hn hact hs
          have h2 := h.active_unique wid w hw hfa hs
          rw [h2] at h1
          exact absurd (Option.some.inj h1.symm) he
      · intro _
        exact close_active_active s wid w hw hfa
      · intro t ht
        rw [close_active_min s wid w hw hfa] at ht
        exact Option.noConfusion ht
      · intro p hp
        rw [hfadeempty] at hp
        exact absurd hp (List.not_mem_nil p)
      · intro t ht
        rw [close_active_dwell_empty s wid w hw hfa h.dwell] at ht
        exact absurd ht (List.not_mem_nil t)
      · intro n win' t hn hft
        rw [close_active_next_timer s wid w hw hfa]
        by_cases he : n = wid
        · subst he
          rw [hwself] at hn
          replace hn := Option.some.inj hn
          rw [← hn] at hft
          exact absurd hft (by simp)
        · rw [hwother n he] at hn
          exact h.win_fresh n win' t hn hft
      · intro n1 n2 win1' win2' t hn1 hn2 h1 h2
        by_cases he1 : n1 = wid
        · subst he1
          rw [hwself] at hn1
          replace hn1 := Option.some.inj hn1
          rw [← hn1] at h1
          exact absurd h1 (by simp)
        · by_cases he2 : n2 = wid
          · subst he2
            rw [hwself] at hn2
            replace hn2 := Option.some.inj hn2
            rw [← hn2] at h2
            exact absurd h2 (by simp)
          · rw [hwother n1 he1] at hn1
            rw [hwother n2 he2] at hn2
            exact h.handle_unique n1 n2 win1' win2' t hn1 hn2 h1 h2
    · rw [close_inactive s wid w hw (bool_eq_false hfa)]
      exact h

theorem inv_exec (now : ℚ) (st : NotificationState) (m : String) (tmo : Option ℚ)
    (arm : Bool) (s : NotifState) (h : Inv s) :
    Inv (execute_transition now st m tmo arm s).1 := by
  unfold execute_transition
  by_cases hsd : s.shutting_down = true
  · simp only [hsd, if_true]
    exact h
  · replace hsd : s.shutting_down = false := by
      cases hcc : s.shutting_down
      · rfl
      · exact absurd hcc hsd
    rw [hsd]
    simp only [Bool.false_eq_true, if_false]
    have h1 : Inv (cancel_min_display_timer s).1 := inv_cancel_min s h
    have h2 : Inv (if arm then start_min_display_timer (cancel_min_display_timer s).1
        else ((cancel_min_display_timer s).1, [])).1 := by
      cases arm with
      | true => simpa using inv_start_min _ h1
      | false => simpa using h1
    exact inv_present _ m tmo (inv_set_state _ st now h2)

theorem inv_set_completions (s : NotifState) (l : List Nat) (h : Inv s) :
    Inv { s with pending_fade_completions := l } :=
  ⟨h.dwell, h.fade, h.active_unique, h.shutdown_active, h.handle_fresh, h.fade_fresh,
    h.dwell_fresh, h.win_fresh, h.handle_unique⟩

theorem inv_set_min_none (s : NotifState) (h : Inv s) (hld : s.live_dwell_timers = []) :
    Inv { s with min_display_timer := none } :=
  ⟨Or.inl hld, h.fade, h.active_unique, h.shutdown_active,
    fun _ ht => Option.noConfusion ht, h.fade_fresh, h.dwell_fresh, h.win_fresh,
    h.handle_unique⟩

theorem inv_startFadeOut (s : NotifState) (wid : Nat) (h : Inv s) :
    Inv (startFadeOut s wid).1 := by
  unfold startFadeOut
  by_cases hsd : s.shutting_down = true
  · simp only [hsd, if_true]
    exact h
  · rw [bool_eq_false hsd]
    simp only [Bool.false_eq_true, if_false]
    cases hw : s.windows wid with
    | none =>
        simp only [hw]
        exact h
    | some w =>
        simp only [hw]
        by_cases hfa : w.notification_active = true
        · simp only [hfa]
          simp only [show (true = false) = False by simp, if_false]
          exact inv_set_completions _ _ (inv_cancel_fade s wid h)
        · rw [bool_eq_false hfa]
          simp only [if_true]
          exact h

theorem inv_fade_completion (s : NotifState) (wid : Nat) (h : Inv s) :
    Inv (fade_completion_handler s wid).1 := by
  unfold fade_completion_handler
  by_cases hsd : s.shutting_down = true
  · simp only [hsd, if_true]
    exact h
  · rw [bool_eq_false hsd]
    simp only [Bool.false_eq_true, if_false]
    cases hw : s.windows wid with
    | none =>
        simp only [hw]
        exact h
    | some w =>
        simp only [hw]
        by_cases hfa : w.notification_active = true
        · simp only [hfa]
          simp only [show (true = false) = False by simp, if_false]
          exact inv_close s wid h (bool_eq_false hsd)
        · rw [bool_eq_false hfa]
          simp only [if_true]
          exact h

theorem inv_handle_min_on_main (now : ℚ) (s : NotifState) (h : Inv s)
    (hld : s.live_dwell_timers = []) :
    Inv (handle_minimum_display_elapsed_on_main now s).1 := by
  unfold handle_minimum_display_elapsed_on_main
  have hres := inv_set_min_none s h hld
  by_cases hsd : s.shutting_down = true
  · simp only [hsd, if_true]
    rw [hsd] at hres
    exact hres
  · rw [bool_eq_false hsd]
    rw [bool_eq_false hsd] at hres
    simp only [Bool.false_eq_true, if_false]
    by_cases hcs : s.current_state = NotificationState.screenCaptured
    · simp only [hcs, if_true]
      rw [hcs] at hres
      exact inv_exec now _ _ none false _ hres
    · simp only [hcs, if_false]
      exact hres

theorem inv_handle_min (now : ℚ) (s : NotifState) (h : Inv s)
    (hld : s.live_dwell_timers = []) :
    Inv (handle_minimum_display_elapsed now s).1 := by
  unfold handle_minimum_display_elapsed
  by_cases hsd : s.shutting_down = true
  · simp only [hsd, if_true]
    have hres := inv_set_min_none s h hld
    rw [hsd] at hres
    exact hres
  · rw [bool_eq_false hsd]
    simp only [Bool.false_eq_true, if_false]
    exact inv_handle_min_on_main now s h hld

theorem inv_reset (s : NotifState) (h : Inv s) : Inv (notification_reset s).1 := by
  unfold notification_reset
  by_cases hsd : s.shutting_down = true
  · simp only [hsd, if_true]
    exact h
  · rw [bool_eq_false hsd]
    simp only [Bool.false_eq_true, if_false]
    cases ha : s.active_notification with
    | none =>
        simp only [ha]
        exact h
    | some wid =>
        simp only [ha]
        exact inv_close s wid h (bool_eq_false hsd)

theorem inv_shutdown (s : NotifState) (h : Inv s) : Inv (notification_shutdown s).1 := by
  unfold notification_shutdown
  by_cases hsd : s.shutting_down = true
  · simp only [hsd, if_true]
    exact h
  · rw [bool_eq_false hsd]
    simp only [Bool.false_eq_true, if_false]
    have hempty : (cancel_min_display_timer { s with shutting_down := true }).1.live_dwell_timers
        = [] := by
      refine cancel_min_dwell_empty _ ?_
      simpa using h.dwell
    refine ⟨?_, ?_, ?_, ?_, ?_, ?_, ?_, ?_, ?_⟩
    · exact Or.inl (by simpa using hempty)
    · rcases h.fade with hf | ⟨t, w, win, hl, hw, hft, hfa⟩
      · exact Or.inl (by simpa using hf)
      · exact Or.inr ⟨t, w, win, by simpa using hl, by simpa using hw, hft, hfa⟩
    · intro w win hw hact hsd'
      simp at hsd'
    · intro _
      simp
    · intro t ht
      simp at ht
    · intro p hp
      simp at hp ⊢
      exact h.fade_fresh p hp
    · intro t ht
      simp at ht ⊢
      have : t ∈ ({ s with shutting_down := true } : NotifState).live_dwell_timers := by
        have hsub := cancel_min_dwell_sub { s with shutting_down := true } t (by simpa using ht)
        exact hsub
      exact h.dwell_fresh t (by simpa using this)
    · intro w win t hw hft
      simp at hw ⊢
      exact h.win_fresh w win t hw hft
    · intro w1 w2 win1 win2 t hw1 hw2 h1 h2
      simp at hw1 hw2
      exact h.handle_unique w1 w2 win1 win2 t hw1 hw2 h1 h2

theorem inv_update_main (s : NotifState) (m : String) (tmo : Option ℚ) (h : Inv s) :
    Inv (update_notification_on_main s m tmo).1 := by
  unfold update_notification_on_main
  cases ha : s.active_notification with
  | none =>
      simp only [ha]
      exact inv_show_main s notificationTitle m (some (tmo.getD 3)) h
  | some wid =>
      simp only [ha]
      cases hw : s.windows wid with
      | none =>
          simp only [hw]
          exact inv_show_main s notificationTitle m (some (tmo.getD 3)) h
      | some w =>
          simp only [hw]
          by_cases hfa : w.notification_active = true
          · simp only [hfa, if_true]
            have hsd : s.shutting_down = false := by
              cases hcc : s.shutting_down
              · rfl
              · have := h.shutdown_active hcc
                rw [ha] at this
                exact Option.noConfusion this
            have h1 : Inv (update_active_notification_text_on_main s m).1 :=
              inv_update_text s m h
            cases tmo with
            | none => exact inv_cancel_fade _ wid h1
            | some q =>
                refine inv_reschedule _ wid (some q) h1 (by simp [hsd]) (by simp [ha]) ?_
                intro w' hw'
                rw [update_text_windows_of_active s m wid ha wid, if_pos rfl, hw] at hw'
                replace hw' := Option.some.inj hw'
                rw [← hw']
                exact hfa
          · rw [bool_eq_false hfa]
            simp only [Bool.false_eq_true, if_false]
            exact inv_show_main s notificationTitle m (some (tmo.getD 3)) h

theorem inv_runEvent (now : ℚ) (e : NotifEvent) (s : NotifState) (h : Inv s) :
    Inv (runEvent now e s).1 := by
  cases e with
  | capture_complete =>
      unfold runEvent notification_on_capture_complete
      exact inv_exec now _ _ none true s h
  | llm_processing_start =>
      unfold runEvent notification_on_llm_processing_start
      by_cases h1 : s.current_state = NotificationState.screenCaptured
      · simp only [h1, if_true]
        by_cases h2 : minCaptureDisplay ≤ now - s.state_start_time
        · simp only [h2, if_true]
          exact inv_exec now _ _ none false s h
        · simp only [h2, if_false]
          exact h
      · simp only [h1, if_false]
        by_cases h2 : s.current_state = NotificationState.idle
        · simp only [h2, if_true]
          exact inv_exec now _ _ none false s h
        · simp only [h2, if_false]
          exact h
  | llm_complete f =>
      unfold runEvent notification_on_llm_complete
      cases f with
      | true => simpa using inv_exec now _ _ none false s h
      | false => simpa using inv_exec now _ _ (some noEventFadeTimeout) false s h
  | calendar_opening =>
      unfold runEvent notification_on_calendar_opening
      exact inv_exec now _ _ (some calendarFadeTimeout) false s h
  | update_request m tmo =>
      unfold runEvent
      exact inv_update_main s m tmo h
  | show_request ti m tmo =>
      unfold runEvent
      exact inv_show_main s ti m tmo h
  | reset_request =>
      unfold runEvent
      exact inv_reset s h
  | shutdown_request =>
      unfold runEvent
      exact inv_shutdown s h
  | dwell_elapsed tid =>
      unfold runEvent
      by_cases hc : s.live_dwell_timers.contains tid = true
      · simp only [hc, if_true]
        have hmem : tid ∈ s.live_dwell_timers := by
          simpa using hc
        have herase : s.live_dwell_timers.erase tid = [] := by
          rcases h.dwell with hd | ⟨t, hl, hm⟩
          · rw [hd] at hmem
            exact absurd hmem (List.not_mem_nil tid)
          · rw [hl] at hmem
            rcases List.mem_singleton.mp hmem with rfl
            rw [hl]
            exact List.erase_cons_head tid []
        have h' : Inv { s with live_dwell_timers := s.live_dwell_timers.erase tid } := by
          refine ⟨Or.inl herase, h.fade, h.active_unique, h.shutdown_active,
            h.handle_fresh, h.fade_fresh, ?_, h.win_fresh, h.handle_unique⟩
          intro t ht
          exact h.dwell_fresh t (List.mem_of_mem_erase ht)
        exact inv_handle_min now _ h' herase
      · simp only [hc, if_false]
        exact h
  | fade_fired tid =>
      unfold runEvent
      cases hfind : s.live_fade_timers.find? (fun p => p.1 = tid) with
      | none =>
          simp only [hfind]
          exact h
      | some p =>
          simp only [hfind]
          have h' : Inv { s with live_fade_timers :=
              s.live_fade_timers.filter (fun q => q.1 ≠ tid) } := by
            refine ⟨h.dwell, ?_, h.active_unique, h.shutdown_active, h.handle_fresh, ?_,
              h.dwell_fresh, h.win_fresh, h.handle_unique⟩
            · rcases h.fade with hf | ⟨t, w, win, hl, hw, hft, hfa⟩
              · exact Or.inl (by simp [hf])
              · by_cases ht : t = tid
                · subst ht
                  left
                  simp [hl]
                · right
                  exact ⟨t, w, win, by simp [hl, ht], hw, hft, hfa⟩
            · intro q hq
              exact h.fade_fresh q (List.mem_of_mem_filter hq)
          exact inv_startFadeOut _ p.2 h'
  | fade_animation_done wid =>
      unfold runEvent
      by_cases hc : s.pending_fade_completions.contains wid = true
      · simp only [hc, if_true]
        exact inv_fade_completion _ wid (inv_set_completions s _ h)
      · simp only [hc, if_false]
        exact h

theorem inv_step (s s' : NotifState) (h : Inv s) (hst : NotifStep s s') : Inv s' := by
  rcases hst with ⟨now, e, rfl⟩
  exact inv_runEvent now e s h

theorem reachable_inv (s : NotifState) (h : Reachable s) : Inv s := by
  induction h with
  | refl => exact inv_init
  | tail _ hstep ih => exact inv_step _ _ ih hstep

/-! ### Effect and frame characterizations used by the claims -/

theorem exec_gate (now : ℚ) (st : NotificationState) (m : String) (tmo : Option ℚ)
    (arm : Bool) (s : NotifState) (hsd : s.shutting_down = true) :
    execute_transition now st m tmo arm s = (s, []) := by
  unfold execute_transition
  simp [hsd]

theorem cancel_min_effects_none (s : NotifState) (hm : s.min_display_timer = none) :
    (cancel_min_display_timer s).2 = [] := by
  unfold cancel_min_display_timer
  simp [hm]

theorem cancel_min_effects_some (s : NotifState) (t : Nat)
    (hm : s.min_display_timer = some t) :
    (cancel_min_display_timer s).2 = [Effect.cancel_dwell t] := by
  unfold cancel_min_display_timer
  simp [hm]

theorem start_min_effects (s : NotifState) :
    (start_min_display_timer s).2 =
      (cancel_min_display_timer s).2 ++
        [Effect.arm_dwell s.next_timer_id minCaptureDisplay] := by
  unfold start_min_display_timer
  simp

theorem cancel_fade_effects_of_handle (s : NotifState) (wid : Nat) (w : NotificationWindow)
    (t : Nat) (hw : s.windows wid = some w) (hft : w.fade_timer = some t) :
    (cancel_fade_on_main s wid).2 = [Effect.invalidate_fade t] := by
  unfold cancel_fade_on_main
  simp [hw, hft]

theorem cancel_fade_effects_of_no_handle (s : NotifState) (wid : Nat)
    (h : s.windows wid = none ∨ ∃ w, s.windows wid = some w ∧ w.fade_timer = none) :
    (cancel_fade_on_main s wid).2 = [] := by
  unfold cancel_fade_on_main
  rcases h with h | ⟨w, h, hft⟩
  · simp [h]
  · simp [h, hft]

theorem cancel_fade_effect_shape (s : NotifState) (wid : Nat) :
    ∀ eff ∈ (cancel_fade_on_main s wid).2, ∃ t, eff = Effect.invalidate_fade t := by
  intro eff heff
  unfold cancel_fade_on_main at heff
  rcases hw : s.windows wid with _ | w
  · rw [hw] at heff
    exact absurd heff (List.not_mem_nil eff)
  · rcases hft : w.fade_timer with _ | t
    · simp [hw, hft] at heff
    · simp [hw, hft] at heff
      exact ⟨t, heff⟩

theorem update_text_effects_of_active (s : NotifState) (m : String) (wid : Nat)
    (ha : s.active_notification = some wid) :
    (update_active_notification_text_on_main s m).2 =
      [Effect.update_text wid m, Effect.touch_surface wid] := by
  unfold update_active_notification_text_on_main
  simp [ha]

theorem present_create_frame (s : NotifState) (m : String) (tmo : Option ℚ)
    (hs : s.shutting_down = false) :
    (present_create_branch s m tmo).1.current_state = s.current_state ∧
    (present_create_branch s m tmo).1.state_start_time = s.state_start_time ∧
    (present_create_branch s m tmo).1.min_display_timer = s.min_display_timer ∧
    (present_create_branch s m tmo).1.live_dwell_timers = s.live_dwell_timers ∧
    (present_create_branch s m tmo).1.shutting_down = s.shutting_down ∧
    (present_create_branch s m tmo).1.pending_notifications = s.pending_notifications := by
  unfold present_create_branch
  cases tmo with
  | some q =>
      simp only []
      exact ⟨show_overlay_state s _ m _ hs, show_overlay_start s _ m _ hs,
        show_overlay_min s _ m _ hs, show_overlay_dwell s _ m _,
        show_overlay_shutting s _ m _, show_overlay_pending s _ m _ hs⟩
  | none =>
      rcases hact : (show_overlay_window s notificationTitle m none).1.active_notification
        with _ | wid2
      · simp only [hact]
        exact ⟨show_overlay_state s _ m _ hs, show_overlay_start s _ m _ hs,
          show_overlay_min s _ m _ hs, show_overlay_dwell s _ m _,
          show_overlay_shutting s _ m _, show_overlay_pending s _ m _ hs⟩
      · simp only [hact]
        refine ⟨?_, ?_, ?_, ?_, ?_, ?_⟩
        · rw [cancel_fade_state, show_overlay_state s _ m _ hs]
        · rw [cancel_fade_start, show_overlay_start s _ m _ hs]
        · rw [cancel_fade_min, show_overlay_min s _ m _ hs]
        · rw [cancel_fade_dwell, show_overlay_dwell s _ m _]
        · rw [cancel_fade_shutting, show_overlay_shutting s _ m _]
        · rw [cancel_fade_pending, show_overlay_pending s _ m _ hs]

theorem present_frame (s : NotifState) (m : String) (tmo : Option ℚ) :
    (present_or_update_notification_on_main s m tmo).1.current_state = s.current_state ∧
    (present_or_update_notification_on_main s m tmo).1.state_start_time =
      s.state_start_time ∧
    (present_or_update_notification_on_main s m tmo).1.min_display_timer =
      s.min_display_timer ∧
    (present_or_update_notification_on_main s m tmo).1.live_dwell_timers =
      s.live_dwell_timers ∧
    (present_or_update_notification_on_main s m tmo).1.shutting_down = s.shutting_down ∧
    (present_or_update_notification_on_main s m tmo).1.pending_notifications =
      s.pending_notifications := by
  unfold present_or_update_notification_on_main
  by_cases hsd : s.shutting_down = true
  · simp [hsd]
  · replace hsd := bool_eq_false hsd
    rw [hsd]
    simp only [Bool.false_eq_true, if_false]
    cases ha : s.active_notification with
    | none =>
        simp only [ha]
        have := present_create_frame s m tmo hsd
        rw [hsd] at this
        exact this
    | some wid =>
        simp only [ha]
        cases hw : s.windows wid with
        | none =>
            simp only [hw]
            have := present_create_frame s m tmo hsd
            rw [hsd] at this
            exact this
        | some w =>
            simp only [hw]
            by_cases hfa : w.notification_active = true
            · simp only [hfa, if_true]
              cases tmo with
              | none =>
                  refine ⟨?_, ?_, ?_, ?_, ?_, ?_⟩ <;> simp [hsd]
              | some q =>
                  refine ⟨?_, ?_, ?_, ?_, ?_, ?_⟩ <;> simp [hsd]
            · rw [bool_eq_false hfa]
              simp only [Bool.false_eq_true, if_false]
              have := present_create_frame s m tmo hsd
              rw [hsd] at this
              exact this

theorem present_effects_head (s : NotifState) (m : String) (tmo : Option ℚ)
    (hs : s.shutting_down = false) :
    (present_or_update_notification_on_main s m tmo).2.head? =
      some (Effect.present m tmo) := by
  unfold present_or_update_notification_on_main present_create_branch
  rw [hs]
  simp only [Bool.false_eq_true, if_false]
  cases ha : s.active_notification with
  | none =>
      simp only [ha]
      rcases tmo with _ | q
      · rcases hact : (show_overlay_window s notificationTitle m none).1.active_notification
          with _ | wid2 <;> simp [hact]
      · simp
  | some wid =>
      simp only [ha]
      cases hw : s.windows wid with
      | none =>
          simp only [hw]
          rcases tmo with _ | q
          · rcases hact : (show_overlay_window s notificationTitle m
                none).1.active_notification with _ | wid2 <;> simp [hact]
          · simp
      | some w =>
          simp only [hw]
          by_cases hfa : w.notification_active = true
          · simp [hfa]
          · rw [bool_eq_false hfa]
            simp only [Bool.false_eq_true, if_false]
            rcases tmo with _ | q
            · rcases hact : (show_overlay_window s notificationTitle m
                  none).1.active_notification with _ | wid2 <;> simp [hact]
            · simp

/-- Every effect of the create-a-surface branch is the `present` marker, a
surface creation or touch, a timer invalidation, or — only for a finite
timeout — an `arm_fade` with exactly that timeout. -/
theorem present_create_effect_shapes (s : NotifState) (m : String) (tmo : Option ℚ)
    (hs : s.shutting_down = false) :
    ∀ eff ∈ (present_create_branch s m tmo).2,
      eff = Effect.present m tmo ∨ (∃ n, eff = Effect.create_surface n) ∨
      (∃ n, eff = Effect.touch_surface n) ∨ (∃ t, eff = Effect.invalidate_fade t) ∨
      (∃ t q, tmo = some q ∧ eff = Effect.arm_fade t q) := by
  unfold present_create_branch
  have hsow := show_overlay_effects s notificationTitle m tmo hs
  cases tmo with
  | some q =>
      simp only []
      intro eff heff
      rcases List.mem_cons.mp heff with rfl | heff
      · exact Or.inl rfl
      · rw [hsow] at heff
        simp at heff
        rcases heff with rfl | rfl | rfl
        · exact Or.inr (Or.inl ⟨_, rfl⟩)
        · exact Or.inr (Or.inr (Or.inl ⟨_, rfl⟩))
        · exact Or.inr (Or.inr (Or.inr (Or.inr ⟨_, q, rfl, rfl⟩)))
  | none =>
      rcases hact : (show_overlay_window s notificationTitle m none).1.active_notification
        with _ | wid2
      · simp only [hact]
        intro eff heff
        rcases List.mem_cons.mp heff with rfl | heff
        · exact Or.inl rfl
        · rw [hsow] at heff
          simp at heff
          rcases heff with rfl | rfl
          · exact Or.inr (Or.inl ⟨_, rfl⟩)
          · exact Or.inr (Or.inr (Or.inl ⟨_, rfl⟩))
      · simp only [hact]
        intro eff heff
        rcases List.mem_cons.mp heff with rfl | heff
        · exact Or.inl rfl
        · rcases List.mem_append.mp heff with heff | heff
          · rw [hsow] at heff
            simp at heff
            rcases heff with rfl | rfl
            · exact Or.inr (Or.inl ⟨_, rfl⟩)
            · exact Or.inr (Or.inr (Or.inl ⟨_, rfl⟩))
          · rcases cancel_fade_effect_shape _ wid2 eff heff with ⟨t, rfl⟩
            exact Or.inr (Or.inr (Or.inr (Or.inl ⟨t, rfl⟩)))

/-- Every effect of `_present_or_update_notification_on_main` is the marker,
a surface creation or touch, a text re-layout, a timer invalidation, or —
only for a finite timeout — an `arm_fade` with exactly that timeout. In
particular it never arms a dwell timer, and a sticky presentation never arms
a fade timer. -/
theorem present_effect_shapes (s : NotifState) (m : String) (tmo : Option ℚ) :
    ∀ eff ∈ (present_or_update_notification_on_main s m tmo).2,
      eff = Effect.present m tmo ∨ (∃ n, eff = Effect.create_surface n) ∨
      (∃ n, eff = Effect.touch_surface n) ∨ (∃ n m', eff = Effect.update_text n m') ∨
      (∃ t, eff = Effect.invalidate_fade t) ∨
      (∃ t q, tmo = some q ∧ eff = Effect.arm_fade t q) := by
  unfold present_or_update_notification_on_main
  by_cases hsd : s.shutting_down = true
  · simp only [hsd, if_true]
    intro eff heff
    exact absurd heff (List.not_mem_nil eff)
  · replace hsd := bool_eq_false hsd
    rw [hsd]
    simp only [Bool.false_eq_true, if_false]
    have hcreate : ∀ eff ∈ (present_create_branch s m tmo).2,
        eff = Effect.present m tmo ∨ (∃ n, eff = Effect.create_surface n) ∨
        (∃ n, eff = Effect.touch_surface n) ∨ (∃ n m', eff = Effect.update_text n m') ∨
        (∃ t, eff = Effect.invalidate_fade t) ∨
        (∃ t q, tmo = some q ∧ eff = Effect.arm_fade t q) := by
      intro eff heff
      rcases present_create_effect_shapes s m tmo hsd eff heff with
        h1 | h1 | h1 | h1 | h1
      · exact Or.inl h1
      · exact Or.inr (Or.inl h1)
      · exact Or.inr (Or.inr (Or.inl h1))
      · exact Or.inr (Or.inr (Or.inr (Or.inr (Or.inl h1))))
      · exact Or.inr (Or.inr (Or.inr (Or.inr (Or.inr h1))))
    cases ha : s.active_notification with
    | none =>
        simp only [ha]
        exact hcreate
    | some wid =>
        simp only [ha]
        cases hw : s.windows wid with
        | none =>
            simp only [hw]
            exact hcreate
        | some w =>
            simp only [hw]
            by_cases hfa : w.notification_active = true
            · simp only [hfa, if_true]
              intro eff heff
              rcases List.mem_cons.mp heff with rfl | heff
              · exact Or.inl rfl
              · rcases List.mem_append.mp heff with heff | heff
                · rw [update_text_effects_of_active s m wid ha] at heff
                  simp at heff
                  rcases heff with rfl | rfl
                  · exact Or.inr (Or.inr (Or.inr (Or.inl ⟨wid, m, rfl⟩)))
                  · exact Or.inr (Or.inr (Or.inl ⟨wid, rfl⟩))
                · cases tmo with
                  | none =>
                      rcases cancel_fade_effect_shape _ wid eff heff with ⟨t, rfl⟩
                      exact Or.inr (Or.inr (Or.inr (Or.inr (Or.inl ⟨t, rfl⟩))))
                  | some q =>
                      rcases hw2 : (update_active_notification_text_on_main s m).1.windows wid
                        with _ | w2
                      · unfold reschedule_fade_on_main at heff
                        rw [hw2] at heff
                        exact absurd heff (List.not_mem_nil eff)
                      · rw [reschedule_some_effects _ wid w2 q hw2] at heff
                        rcases List.mem_append.mp heff with heff | heff
                        · rcases cancel_fade_effect_shape _ wid eff heff with ⟨t, rfl⟩
                          exact Or.inr (Or.inr (Or.inr (Or.inr (Or.inl ⟨t, rfl⟩))))
                        · rcases List.mem_singleton.mp heff with rfl
                          exact Or.inr (Or.inr (Or.inr (Or.inr (Or.inr
                            ⟨_, q, rfl, rfl⟩))))
            · rw [bool_eq_false hfa]
              simp only [Bool.false_eq_true, if_false]
              exact hcreate

/-- Decomposition of a non-shutdown `_execute_transition` run into its
phases: dwell-cancel effects, optional dwell-arm effects, the state
recording, and the effects of `PresentAndUpdate` on the intermediate state
(dwell timers settled, new state recorded). -/
theorem exec_decomposition (now : ℚ) (st : NotificationState) (m : String)
    (tmo : Option ℚ) (arm : Bool) (s : NotifState) (hs : s.shutting_down = false) :
    execute_transition now st m tmo arm s =
      ((present_or_update_notification_on_main
          { (if arm then start_min_display_timer (cancel_min_display_timer s).1
             else ((cancel_min_display_timer s).1, [])).1 with
            current_state := st, state_start_time := now } m tmo).1,
        (cancel_min_display_timer s).2 ++
          (if arm then start_min_display_timer (cancel_min_display_timer s).1
           else ((cancel_min_display_timer s).1, [])).2 ++
          (Effect.record_state st now ::
            (present_or_update_notification_on_main
              { (if arm then start_min_display_timer (cancel_min_display_timer s).1
                 else ((cancel_min_display_timer s).1, [])).1 with
                current_state := st, state_start_time := now } m tmo).2)) := by
  unfold execute_transition
  rw [hs]
  simp only [Bool.false_eq_true, if_false]

theorem exec_state (now : ℚ) (st : NotificationState) (m : String) (tmo : Option ℚ)
    (arm : Bool) (s : NotifState) (hs : s.shutting_down = false) :
    (execute_transition now st m tmo arm s).1.current_state = st := by
  rw [exec_decomposition now st m tmo arm s hs]
  simp only []
  rw [(present_frame _ m tmo).1]

theorem exec_start (now : ℚ) (st : NotificationState) (m : String) (tmo : Option ℚ)
    (arm : Bool) (s : NotifState) (hs : s.shutting_down = false) :
    (execute_transition now st m tmo arm s).1.state_start_time = now := by
  rw [exec_decomposition now st m tmo arm s hs]
  simp only []
  rw [(present_frame _ m tmo).2.1]

theorem exec_min_of_arm (now : ℚ) (st : NotificationState) (m : String) (tmo : Option ℚ)
    (s : NotifState) (hs : s.shutting_down = false) :
    (execute_transition now st m tmo true s).1.min_display_timer =
      some s.next_timer_id := by
  rw [exec_decomposition now st m tmo true s hs]
  simp only [if_true]
  rw [(present_frame _ m tmo).2.2.1]
  simp

theorem exec_min_of_not_arm (now : ℚ) (st : NotificationState) (m : String)
    (tmo : Option ℚ) (s : NotifState) (hs : s.shutting_down = false) :
    (execute_transition now st m tmo false s).1.min_display_timer = none := by
  rw [exec_decomposition now st m tmo false s hs]
  simp only [Bool.false_eq_true, if_false]
  rw [(present_frame _ m tmo).2.2.1]
  simp

theorem exec_present_marker (now : ℚ) (st : NotificationState) (m : String)
    (tmo : Option ℚ) (arm : Bool) (s : NotifState) (hs : s.shutting_down = false) :
    Effect.present m tmo ∈ (execute_transition now st m tmo arm s).2 := by
  rw [exec_decomposition now st m tmo arm s hs]
  simp only []
  have hmarker := present_effects_head
    ({ (if arm then start_min_display_timer (cancel_min_display_timer s).1
        else ((cancel_min_display_timer s).1, [])).1 with
       current_state := st, state_start_time := now }) m tmo
    (by cases arm <;> simp [hs])
  rcases hrest : (present_or_update_notification_on_main
      ({ (if arm then start_min_display_timer (cancel_min_display_timer s).1
          else ((cancel_min_display_timer s).1, [])).1 with
         current_state := st, state_start_time := now }) m tmo).2 with _ | ⟨e0, rest⟩
  · rw [hrest] at hmarker
    exact absurd hmarker (by simp)
  · rw [hrest] at hmarker
    simp only [List.head?_cons] at hmarker
    replace hmarker := Option.some.inj hmarker
    subst hmarker
    rw [List.mem_append]
    right
    simp

/-- Every effect of a non-shutdown `_execute_transition` run is a dwell
cancel, a dwell arm (only when requested, and always for the fixed minimum
capture duration), the state recording, or one of the presentation effects;
a dwell timer is armed only when `start_min_timer` is true, and a fade timer
only with the requested finite timeout. -/
theorem exec_effect_shapes (now : ℚ) (st : NotificationState) (m : String)
    (tmo : Option ℚ) (arm : Bool) (s : NotifState) (hs : s.shutting_down = false) :
    ∀ eff ∈ (execute_transition now st m tmo arm s).2,
      (∃ t, eff = Effect.cancel_dwell t) ∨
      (arm = true ∧ ∃ t, eff = Effect.arm_dwell t minCaptureDisplay) ∨
      eff = Effect.record_state st now ∨ eff = Effect.present m tmo ∨
      (∃ n, eff = Effect.create_surface n) ∨ (∃ n, eff = Effect.touch_surface n) ∨
      (∃ n m', eff = Effect.update_text n m') ∨ (∃ t, eff = Effect.invalidate_fade t) ∨
      (∃ t q, tmo = some q ∧ eff = Effect.arm_fade t q) := by
  rw [exec_decomposition now st m tmo arm s hs]
  simp only []
  intro eff heff
  rcases List.mem_append.mp heff with heff | heff
  · rcases List.mem_append.mp heff with heff | heff
    · left
      unfold cancel_min_display_timer at heff
      rcases hm : s.min_display_timer with _ | t
      · rw [hm] at heff
        exact absurd heff (List.not_mem_nil eff)
      · simp [hm] at heff
        exact ⟨t, heff⟩
    · cases arm with
      | false =>
          simp only [Bool.false_eq_true, if_false] at heff
          exact absurd heff (List.not_mem_nil eff)
      | true =>
          simp only [if_true] at heff
          rw [start_min_effects] at heff
          rcases List.mem_append.mp heff with heff | heff
          · rw [cancel_min_effects_none _ (cancel_min_min s)] at heff
            exact absurd heff (List.not_mem_nil eff)
          · rcases List.mem_singleton.mp heff with rfl
            exact Or.inr (Or.inl ⟨rfl, _, rfl⟩)
  · rcases List.mem_cons.mp heff with rfl | heff
    · exact Or.inr (Or.inr (Or.inl rfl))
    · rcases present_effect_shapes _ m tmo eff heff with h1 | h1 | h1 | h1 | h1 | h1
      · exact Or.inr (Or.inr (Or.inr (Or.inl h1)))
      · exact Or.inr (Or.inr (Or.inr (Or.inr (Or.inl h1))))
      · exact Or.inr (Or.inr (Or.inr (Or.inr (Or.inr (Or.inl h1)))))
      · exact Or.inr (Or.inr (Or.inr (Or.inr (Or.inr (Or.inr (Or.inl h1))))))
      · exact Or.inr (Or.inr (Or.inr (Or.inr (Or.inr (Or.inr (Or.inr (Or.inl h1)))))))
      · exact Or.inr (Or.inr (Or.inr (Or.inr (Or.inr (Or.inr (Or.inr (Or.inr h1)))))))


/-! ### The claims -/

/-- C1, counterexample to the claim as stated: after `notification_shutdown`
has engaged the gate, `show_notification` is not a no-op — its
`enqueue_on_main` body has no shutdown check and still appends the request to
`_PENDING_NOTIFICATIONS` (and returns `True`); only the dequeue step is
gated. So the state changes beyond mere reference clearing. -/
theorem shutdown_show_counterexample :
    shutdownState.shutting_down = true ∧
    shutdownState.pending_notifications = [] ∧
    (show_notification_on_main shutdownState "ScreenCal" "m" (some 3)).1.pending_notifications
      = [("ScreenCal", "m", some 3)] ∧
    (show_notification_on_main shutdownState "ScreenCal" "m" (some 3)).2.2 = true := by
  refine ⟨rfl, rfl, by decide, rfl⟩

/-- C1 (amended): after the shutdown flag is engaged, every public entry
point and every timer callback of the subsystem creates no surface, arms no
timer and touches no presentation resource, and — with the single exception
of `show_notification`, which still appends the request to the pending
queue — performs no mutation beyond clearing the dwell-timer handle
reference. The exact result of each operation on a shut-down state: -/
theorem shutdown_gate_noop (s : NotifState) (hsd : s.shutting_down = true) :
    (∀ now, notification_on_capture_complete now s = (s, [], true)) ∧
    (∀ now, notification_on_llm_processing_start now s = (s, [])) ∧
    (∀ now f, notification_on_llm_complete now f s = (s, [])) ∧
    (∀ now, notification_on_calendar_opening now s = (s, [])) ∧
    notification_reset s = (s, []) ∧
    notification_shutdown s = (s, []) ∧
    (∀ b m tmo, update_notification b s m tmo = (s, [], false)) ∧
    (∀ now, handle_minimum_display_elapsed now s =
      ({ s with min_display_timer := none }, [])) ∧
    (∀ wid, startFadeOut s wid = (s, [])) ∧
    (∀ wid, fade_completion_handler s wid = (s, [])) ∧
    (∀ ti m tmo, show_notification_on_main s ti m tmo =
      ({ s with pending_notifications := s.pending_notifications ++ [(ti, m, tmo)] },
       [Effect.enqueue ti m tmo], true)) := by
  refine ⟨?_, ?_, ?_, ?_, ?_, ?_, ?_, ?_, ?_, ?_, ?_⟩
  · intro now
    unfold notification_on_capture_complete
    rw [exec_gate _ _ _ _ _ _ hsd]
  · intro now
    unfold notification_on_llm_processing_start
    by_cases h1 : s.current_state = NotificationState.screenCaptured
    · by_cases h2 : minCaptureDisplay ≤ now - s.state_start_time
      · simp [h1, h2, exec_gate _ _ _ _ _ _ hsd]
      · simp [h1, h2]
    · by_cases h2 : s.current_state = NotificationState.idle
      · simp [h1, h2, exec_gate _ _ _ _ _ _ hsd]
      · simp [h1, h2]
  · intro now f
    unfold notification_on_llm_complete
    cases f <;> simp [exec_gate _ _ _ _ _ _ hsd]
  · intro now
    unfold notification_on_calendar_opening
    exact exec_gate _ _ _ _ _ _ hsd
  · unfold notification_reset
    simp [hsd]
  · unfold notification_shutdown
    simp [hsd]
  · intro b m tmo
    unfold update_notification
    simp [hsd]
  · intro now
    unfold handle_minimum_display_elapsed
    simp [hsd]
  · intro wid
    unfold startFadeOut
    simp [hsd]
  · intro wid
    unfold fade_completion_handler
    simp [hsd]
  · intro ti m tmo
    unfold show_notification_on_main dequeue_and_show_next
    simp [hsd]

theorem shutdown_gate_noop_witness :
    shutdownState.shutting_down = true ∧
    notification_reset shutdownState = (shutdownState, []) ∧
    update_notification true shutdownState "x" none = (shutdownState, [], false) ∧
    startFadeOut shutdownState 0 = (shutdownState, []) :=
  ⟨rfl, (shutdown_gate_noop shutdownState rfl).2.2.2.2.1,
    (shutdown_gate_noop shutdownState rfl).2.2.2.2.2.2.1 true "x" none,
    (shutdown_gate_noop shutdownState rfl).2.2.2.2.2.2.2.2.1 0⟩

/-- C2: the dwell-elapsed callback, on the UI thread outside shutdown,
transitions only when the state is still `SCREEN_CAPTURED`; it then moves to
`PROCESSING_LLM` presenting `_PROCESSING_MESSAGE` ("Analyzing captured
screen...", the message the spec abbreviates as "Analyzing…") with no fade
timeout — no fade timer and no dwell timer is armed. In every other state
the whole effect is clearing the expired dwell-timer handle: state, active
notification, windows, live timers and queue are untouched. -/
theorem dwell_elapsed_suppression (now : ℚ) (s : NotifState)
    (hsd : s.shutting_down = false) :
    (s.current_state = NotificationState.screenCaptured →
      (handle_minimum_display_elapsed_on_main now s).1.current_state =
        NotificationState.processingLlm ∧
      Effect.present processingMessage none ∈
        (handle_minimum_display_elapsed_on_main now s).2 ∧
      (∀ eff ∈ (handle_minimum_display_elapsed_on_main now s).2,
        (∀ t q, eff ≠ Effect.arm_fade t q) ∧ (∀ t q, eff ≠ Effect.arm_dwell t q))) ∧
    (s.current_state ≠ NotificationState.screenCaptured →
      handle_minimum_display_elapsed_on_main now s =
        ({ s with min_display_timer := none }, [])) := by
  unfold handle_minimum_display_elapsed_on_main
  rw [hsd]
  simp only [Bool.false_eq_true, if_false]
  constructor
  · intro hcs
    simp only [hcs, if_true]
    refine ⟨exec_state _ _ _ _ _ _ rfl, exec_present_marker _ _ _ _ _ _ rfl, ?_⟩
    intro eff heff
    rcases exec_effect_shapes now _ processingMessage none false _ rfl eff heff with
      ⟨t0, rfl⟩ | ⟨hfalse, _⟩ | rfl | rfl | ⟨n, rfl⟩ | ⟨n, rfl⟩ | ⟨n, m', rfl⟩ |
      ⟨t0, rfl⟩ | ⟨t0, q0, hq0, rfl⟩
    · exact ⟨fun t q h => Effect.noConfusion h, fun t q h => Effect.noConfusion h⟩
    · exact absurd hfalse (by simp)
    · exact ⟨fun t q h => Effect.noConfusion h, fun t q h => Effect.noConfusion h⟩
    · exact ⟨fun t q h => Effect.noConfusion h, fun t q h => Effect.noConfusion h⟩
    · exact ⟨fun t q h => Effect.noConfusion h, fun t q h => Effect.noConfusion h⟩
    · exact ⟨fun t q h => Effect.noConfusion h, fun t q h => Effect.noConfusion h⟩
    · exact ⟨fun t q h => Effect.noConfusion h, fun t q h => Effect.noConfusion h⟩
    · exact ⟨fun t q h => Effect.noConfusion h, fun t q h => Effect.noConfusion h⟩
    · exact absurd hq0 (by simp)
  · intro hcs
    simp only [hcs, if_false]

theorem dwell_elapsed_suppression_witness :
    (handle_minimum_display_elapsed_on_main 2 sampleCaptured).1.current_state =
      NotificationState.processingLlm ∧
    handle_minimum_display_elapsed_on_main 0 sampleShown =
      ({ sampleShown with min_display_timer := none }, []) :=
  ⟨((dwell_elapsed_suppression 2 sampleCaptured rfl).1 rfl).1,
    (dwell_elapsed_suppression 0 sampleShown rfl).2 (by decide)⟩

/-- C3: the `_notification_active` flag starts true when a surface is
created; `_close_notification_window` on an already-inactive window is an
exact no-op returning `False`; closing an active window returns `True` and
leaves the flag false (so a second close is a no-op by the previous
conjunct); the fade-timer callback and the fade-completion handler are
no-ops on a window whose flag is already false. -/
theorem active_flag_single_teardown :
    (∀ s title m tmo, s.shutting_down = false →
      ∃ wid win, (show_overlay_window s title m tmo).1.active_notification = some wid ∧
        (show_overlay_window s title m tmo).1.windows wid = some win ∧
        win.notification_active = true) ∧
    (∀ s wid w, s.windows wid = some w → w.notification_active = false →
      close_notification_window s (some wid) = (s, [], false)) ∧
    (∀ s wid w, s.windows wid = some w → w.notification_active = true →
      (close_notification_window s (some wid)).2.2 = true ∧
      ∃ win', (close_notification_window s (some wid)).1.windows wid = some win' ∧
        win'.notification_active = false) ∧
    (∀ s wid w, s.windows wid = some w → w.notification_active = false →
      startFadeOut s wid = (s, [])) ∧
    (∀ s wid w, s.windows wid = some w → w.notification_active = false →
      fade_completion_handler s wid = (s, [])) := by
  refine ⟨?_, ?_, ?_, ?_, ?_⟩
  · intro s title m tmo hs
    refine ⟨s.next_window_id, freshWindow s title m tmo,
      show_overlay_active s title m tmo hs, ?_, rfl⟩
    rw [show_overlay_windows s title m tmo hs, if_pos rfl]
  · intro s wid w hw hfa
    exact close_inactive s wid w hw hfa
  · intro s wid w hw hfa
    refine ⟨close_active_ret s wid w hw hfa, ?_⟩
    rcases close_active_windows_self_flag s wid w hw hfa with ⟨win', hwin', hflag, _⟩
    exact ⟨win', hwin', hflag⟩
  · intro s wid w hw hfa
    unfold startFadeOut
    by_cases hsd : s.shutting_down = true
    · simp [hsd]
    · simp [bool_eq_false hsd, hw, hfa]
  · intro s wid w hw hfa
    unfold fade_completion_handler
    by_cases hsd : s.shutting_down = true
    · simp [hsd]
    · simp [bool_eq_false hsd, hw, hfa]

theorem active_flag_single_teardown_witness :
    (∃ wid win,
      (show_overlay_window initState "T" "m" (some 3)).1.active_notification = some wid ∧
      (show_overlay_window initState "T" "m" (some 3)).1.windows wid = some win ∧
      win.notification_active = true) ∧
    close_notification_window sampleClosed (some 0) = (sampleClosed, [], false) ∧
    startFadeOut sampleClosed 0 = (sampleClosed, []) ∧
    fade_completion_handler sampleClosed 0 = (sampleClosed, []) :=
  ⟨active_flag_single_teardown.1 initState "T" "m" (some 3) rfl,
    active_flag_single_teardown.2.1 sampleClosed 0 closedWindow (by decide) rfl,
    active_flag_single_teardown.2.2.2.1 sampleClosed 0 closedWindow (by decide) rfl,
    active_flag_single_teardown.2.2.2.2 sampleClosed 0 closedWindow (by decide) rfl⟩


theorem reachable_sampleShown : Reachable sampleShown :=
  Relation.ReflTransGen.single
    ⟨0, NotifEvent.show_request "ScreenCal" "hello" (some 3), rfl⟩

/-- C4: in every reachable state there is at most one live fade timer and at
most one live dwell timer; rescheduling the active window's fade timer first
invalidates the previous timer T1 and only then arms a fresh T2 (the effect
trace is exactly invalidate-then-arm), after which T1 is no longer live, so
its firing is a no-op; restarting the dwell timer likewise cancels the
previous handle first, and the superseded timer's firing is a no-op. -/
theorem timer_uniqueness :
    (∀ s, Reachable s →
      s.live_fade_timers.length ≤ 1 ∧ s.live_dwell_timers.length ≤ 1) ∧
    (∀ s wid w t1 q, Inv s → s.shutting_down = false →
      s.active_notification = some wid → s.windows wid = some w →
      w.notification_active = true → w.fade_timer = some t1 →
      ∃ t2, t1 ≠ t2 ∧
        (reschedule_fade_on_main s wid (some q)).2 =
          [Effect.invalidate_fade t1, Effect.arm_fade t2 q] ∧
        (reschedule_fade_on_main s wid (some q)).1.live_fade_timers = [(t2, wid)] ∧
        (∀ now, runEvent now (NotifEvent.fade_fired t1)
            (reschedule_fade_on_main s wid (some q)).1 =
          ((reschedule_fade_on_main s wid (some q)).1, []))) ∧
    (∀ s t1, Inv s → s.min_display_timer = some t1 →
      ∃ t2, t1 ≠ t2 ∧
        (start_min_display_timer s).2 =
          [Effect.cancel_dwell t1, Effect.arm_dwell t2 minCaptureDisplay] ∧
        (start_min_display_timer s).1.live_dwell_timers = [t2] ∧
        (∀ now, runEvent now (NotifEvent.dwell_elapsed t1) (start_min_display_timer s).1 =
          ((start_min_display_timer s).1, []))) := by
  refine ⟨?_, ?_, ?_⟩
  · intro s hr
    have h := reachable_inv s hr
    constructor
    · rcases h.fade with hf | ⟨t, w, win, hl, _, _, _⟩
      · simp [hf]
      · simp [hl]
    · rcases h.dwell with hd | ⟨t, hl, _⟩
      · simp [hd]
      · simp [hl]
  · intro s wid w t1 q h hs ha hw hfa hft
    have hlt : t1 < s.next_timer_id := h.win_fresh wid w t1 hw hft
    refine ⟨s.next_timer_id, Nat.ne_of_lt hlt, ?_, ?_, ?_⟩
    · rw [reschedule_some_effects s wid w q hw,
        cancel_fade_effects_of_handle s wid w t1 hw hft]
      rfl
    · rw [reschedule_some_fade s wid w q hw, cancel_fade_live_empty s wid h hs ha]
    · intro now
      unfold runEvent
      rw [reschedule_some_fade s wid w q hw, cancel_fade_live_empty s wid h hs ha]
      have hne : ¬(s.next_timer_id = t1) := fun hc => absurd hc.symm (Nat.ne_of_lt hlt)
      simp [List.find?_cons, hne]
  · intro s t1 h hm
    have hlt : t1 < s.next_timer_id := h.handle_fresh t1 hm
    have hempty := cancel_min_dwell_empty s h.dwell
    refine ⟨s.next_timer_id, Nat.ne_of_lt hlt, ?_, ?_, ?_⟩
    · rw [start_min_effects, cancel_min_effects_some s t1 hm]
      rfl
    · rw [start_min_dwell, hempty]
    · intro now
      unfold runEvent
      rw [start_min_dwell, hempty]
      have hne : ¬(t1 = s.next_timer_id) := Nat.ne_of_lt hlt
      simp [hne]

theorem timer_uniqueness_witness :
    (sampleShown.live_fade_timers.length ≤ 1 ∧
      sampleShown.live_dwell_timers.length ≤ 1) ∧
    (∃ t2, (0 : Nat) ≠ t2 ∧
      (reschedule_fade_on_main sampleShown 0 (some 7)).2 =
        [Effect.invalidate_fade 0, Effect.arm_fade t2 7] ∧
      (reschedule_fade_on_main sampleShown 0 (some 7)).1.live_fade_timers = [(t2, 0)] ∧
      (∀ now, runEvent now (NotifEvent.fade_fired 0)
          (reschedule_fade_on_main sampleShown 0 (some 7)).1 =
        ((reschedule_fade_on_main sampleShown 0 (some 7)).1, []))) :=
  ⟨timer_uniqueness.1 sampleShown reachable_sampleShown,
    timer_uniqueness.2.1 sampleShown 0 sampleWindow 0 7
      (reachable_inv sampleShown reachable_sampleShown) rfl rfl rfl rfl rfl⟩

/-- C5, counterexample to the "pulls the next PendingQueue entry" part: with
a request queued behind the visible window, the fade-out completes, the
window closes and the machine returns to idle, but the queued request is
neither dequeued nor displayed — `_close_on_main` never calls
`_dequeue_and_show_next`. -/
theorem fade_complete_no_dequeue_counterexample :
    sampleFading.pending_notifications = [("T2", "m2", some 2)] ∧
    (runEvent 0 (NotifEvent.fade_animation_done 0) sampleFading).1.pending_notifications
      = [("T2", "m2", some 2)] ∧
    (runEvent 0 (NotifEvent.fade_animation_done 0) sampleFading).1.active_notification
      = none ∧
    (runEvent 0 (NotifEvent.fade_animation_done 0) sampleFading).2 =
      [Effect.touch_surface 0] := by
  refine ⟨by decide, by decide, rfl, by decide⟩

/-- C5 (amended): when the fade-out completion handler runs outside shutdown
on a still-active window, it marks the window inactive, drops its fade-timer
handle, clears `_ACTIVE_NOTIFICATION`, resets the machine to `IDLE` with
`_STATE_START_TIME = 0`, and cancels the remaining timers (the dwell handle
and any live timer of this window). It does not pull the next pending-queue
entry: the queue is left untouched, and no surface is created and nothing is
dequeued. -/
theorem fade_complete_resets_to_idle (s : NotifState) (wid : Nat)
    (w : NotificationWindow) (hsd : s.shutting_down = false)
    (hw : s.windows wid = some w) (hfa : w.notification_active = true)
    (hd : s.live_dwell_timers = [] ∨
      ∃ t, s.live_dwell_timers = [t] ∧ s.min_display_timer = some t) :
    (∃ win', (fade_completion_handler s wid).1.windows wid = some win' ∧
      win'.notification_active = false ∧ win'.fade_timer = none) ∧
    (fade_completion_handler s wid).1.active_notification = none ∧
    (fade_completion_handler s wid).1.current_state = NotificationState.idle ∧
    (fade_completion_handler s wid).1.state_start_time = 0 ∧
    (fade_completion_handler s wid).1.min_display_timer = none ∧
    (fade_completion_handler s wid).1.live_dwell_timers = [] ∧
    (∀ t, w.fade_timer = some t →
      ∀ p ∈ (fade_completion_handler s wid).1.live_fade_timers, p.1 ≠ t) ∧
    (fade_completion_handler s wid).1.pending_notifications = s.pending_notifications ∧
    (∀ eff ∈ (fade_completion_handler s wid).2,
      (∀ n, eff ≠ Effect.create_surface n) ∧
      (∀ a b c, eff ≠ Effect.dequeue a b c)) := by
  have hred : fade_completion_handler s wid =
      ((close_notification_window s (some wid)).1,
        (close_notification_window s (some wid)).2.1) := by
    unfold fade_completion_handler
    rw [hsd]
    simp [hw, hfa]
  rw [hred]
  refine ⟨?_, ?_, ?_, ?_, ?_, ?_, ?_, ?_, ?_⟩
  · exact close_active_windows_self_flag s wid w hw hfa
  · exact close_active_active s wid w hw hfa
  · exact close_active_state s wid w hw hfa
  · exact close_active_start s wid w hw hfa
  · exact close_active_min s wid w hw hfa
  · exact close_active_dwell_empty s wid w hw hfa hd
  · intro t hft p hp
    rw [close_active_fade_handle s wid w t hw hfa hft] at hp
    have := List.of_mem_filter hp
    simpa using this
  · exact close_active_pending s wid w hw hfa
  · intro eff heff
    rcases close_active_effect_shapes s wid w hw hfa eff heff with
      ⟨t, rfl⟩ | rfl | ⟨t, rfl⟩
    · exact ⟨fun n h => Effect.noConfusion h, fun a b c h => Effect.noConfusion h⟩
    · exact ⟨fun n h => Effect.noConfusion h, fun a b c h => Effect.noConfusion h⟩
    · exact ⟨fun n h => Effect.noConfusion h, fun a b c h => Effect.noConfusion h⟩

theorem fade_complete_resets_to_idle_witness :
    ((runEvent 0 (NotifEvent.fade_animation_done 0) sampleFading).1.active_notification
        = none) ∧
    (fade_completion_handler sampleFading 0).1.current_state = NotificationState.idle ∧
    (fade_completion_handler sampleFading 0).1.active_notification = none := by
  refine ⟨rfl, ?_, ?_⟩
  · exact (fade_complete_resets_to_idle sampleFading 0
      ({ wid := 0, title := "ScreenCal", text := "hello", notification_active := true,
         fade_timer := none, fade_helper := true, ns_window := true })
      rfl rfl rfl (Or.inl rfl)).2.2.1
  · exact (fade_complete_resets_to_idle sampleFading 0
      ({ wid := 0, title := "ScreenCal", text := "hello", notification_active := true,
         fade_timer := none, fade_helper := true, ns_window := true })
      rfl rfl rfl (Or.inl rfl)).2.1


/-- The update-in-place branch of `_present_or_update_notification_on_main`,
taken whenever an active window exists. -/
theorem present_update_branch (s : NotifState) (m : String) (tmo : Option ℚ) (wid : Nat)
    (w : NotificationWindow) (hsd : s.shutting_down = false)
    (ha : s.active_notification = some wid) (hw : s.windows wid = some w)
    (hfa : w.notification_active = true) :
    present_or_update_notification_on_main s m tmo =
      ((match tmo with
        | none => cancel_fade_on_main (update_active_notification_text_on_main s m).1 wid
        | some q => reschedule_fade_on_main
            (update_active_notification_text_on_main s m).1 wid (some q)).1,
       Effect.present m tmo ::
         ((update_active_notification_text_on_main s m).2 ++
          (match tmo with
           | none => cancel_fade_on_main (update_active_notification_text_on_main s m).1 wid
           | some q => reschedule_fade_on_main
               (update_active_notification_text_on_main s m).1 wid (some q)).2)) := by
  unfold present_or_update_notification_on_main
  rw [hsd]
  simp [ha, hw, hfa]

/-- C6: while an `ActiveNotification` exists whose surface is still active,
`PresentAndUpdate` never creates a surface — it re-lays-out the existing
window's text in place, keeps it the active window with its flag still true,
and on a sticky request clears (invalidating any pending handle) while on a
finite request arms a fresh fade timer on the same window. Conversely, a
surface is only ever created when no active notification exists, the
recorded one is marked inactive, or its window object is gone. -/
theorem present_updates_in_place :
    (∀ s m tmo wid w, s.shutting_down = false → s.active_notification = some wid →
      s.windows wid = some w → w.notification_active = true →
      ((∀ eff ∈ (present_or_update_notification_on_main s m tmo).2,
          ∀ n, eff ≠ Effect.create_surface n) ∧
       Effect.update_text wid m ∈ (present_or_update_notification_on_main s m tmo).2 ∧
       (present_or_update_notification_on_main s m tmo).1.active_notification = some wid ∧
       (∃ win', (present_or_update_notification_on_main s m tmo).1.windows wid
            = some win' ∧
          win'.notification_active = true ∧ win'.text = m ∧
          (tmo = none → win'.fade_timer = none) ∧
          (∀ q, tmo = some q → ∃ t2, win'.fade_timer = some t2 ∧
            Effect.arm_fade t2 q ∈ (present_or_update_notification_on_main s m tmo).2)) ∧
       (tmo = none → ∀ t, w.fade_timer = some t →
          Effect.invalidate_fade t ∈ (present_or_update_notification_on_main s m tmo).2))) ∧
    (∀ s m tmo, s.shutting_down = false →
      (∃ n, Effect.create_surface n ∈ (present_or_update_notification_on_main s m tmo).2) →
      s.active_notification = none ∨
      (∃ wid w, s.active_notification = some wid ∧ s.windows wid = some w ∧
        w.notification_active = false) ∨
      (∃ wid, s.active_notification = some wid ∧ s.windows wid = none)) := by
  constructor
  · intro s m tmo wid w hsd ha hw hfa
    have hred := present_update_branch s m tmo wid w hsd ha hw hfa
    have hw1 : (update_active_notification_text_on_main s m).1.windows wid =
        some { w with text := m } := by
      rw [update_text_windows_of_active s m wid ha wid, if_pos rfl, hw]
      rfl
    refine ⟨?_, ?_, ?_, ?_, ?_⟩
    · intro eff heff n
      rw [hred] at heff
      rcases List.mem_cons.mp heff with rfl | heff
      · exact Effect.noConfusion
      · rcases List.mem_append.mp heff with heff | heff
        · rw [update_text_effects_of_active s m wid ha] at heff
          simp at heff
          rcases heff with rfl | rfl
          · exact Effect.noConfusion
          · exact Effect.noConfusion
        · cases tmo with
          | none =>
              rcases cancel_fade_effect_shape _ wid eff heff with ⟨t, rfl⟩
              exact Effect.noConfusion
          | some q =>
              rw [reschedule_some_effects _ wid { w with text := m } q hw1] at heff
              rcases List.mem_append.mp heff with heff | heff
              · rcases cancel_fade_effect_shape _ wid eff heff with ⟨t, rfl⟩
                exact Effect.noConfusion
              · rcases List.mem_singleton.mp heff with rfl
                exact Effect.noConfusion
    · rw [hred]
      simp [update_text_effects_of_active s m wid ha]
    · rw [hred]
      cases tmo with
      | none => simp [ha]
      | some q => simp [ha]
    · rw [hred]
      cases tmo with
      | none =>
          refine ⟨{ w with text := m, fade_timer := none }, ?_, hfa, rfl, fun _ => rfl, ?_⟩
          · simp only []
            rw [cancel_fade_windows, if_pos rfl, hw1]
            rfl
          · intro q hq
            exact absurd hq (by simp)
      | some q =>
          have hself := reschedule_some_windows_self
            (update_active_notification_text_on_main s m).1 wid { w with text := m } q hw1
          have heffs := reschedule_some_effects
            (update_active_notification_text_on_main s m).1 wid { w with text := m } q hw1
          refine ⟨{ w with text := m, fade_helper := true, fade_timer := some (update_active_notification_text_on_main s m).1.next_timer_id }, ?_, hfa, rfl, ?_, ?_⟩
          · simp only []
            rw [hself]
          · intro hq
            exact absurd hq (by simp)
          · intro q' hq'
            replace hq' := Option.some.inj hq'
            subst hq'
            refine ⟨(update_active_notification_text_on_main s m).1.next_timer_id, rfl, ?_⟩
            simp only []
            simp [heffs]
    · intro htmo t hft
      subst htmo
      rw [hred]
      have hc := cancel_fade_effects_of_handle
        (update_active_notification_text_on_main s m).1 wid { w with text := m } t hw1
        (by simpa using hft)
      simp only []
      simp [hc]
  · intro s m tmo hsd hex
    cases ha : s.active_notification with
    | none => exact Or.inl rfl
    | some wid =>
        cases hw : s.windows wid with
        | none => exact Or.inr (Or.inr ⟨wid, rfl, hw⟩)
        | some w =>
            by_cases hfa : w.notification_active = true
            · exfalso
              rcases hex with ⟨n, hmem⟩
              have hred := present_update_branch s m tmo wid w hsd ha hw hfa
              rw [hred] at hmem
              have hw1 : (update_active_notification_text_on_main s m).1.windows wid =
                  some { w with text := m } := by
                rw [update_text_windows_of_active s m wid ha wid, if_pos rfl, hw]
                rfl
              rcases List.mem_cons.mp hmem with hcc | hmem
              · exact Effect.noConfusion hcc
              · rcases List.mem_append.mp hmem with hmem | hmem
                · rw [update_text_effects_of_active s m wid ha] at hmem
                  simp at hmem
                · cases tmo with
                  | none =>
                      rcases cancel_fade_effect_shape _ wid _ hmem with ⟨t, hcc⟩
                      exact Effect.noConfusion hcc
                  | some q =>
                      rw [reschedule_some_effects _ wid { w with text := m } q hw1] at hmem
                      rcases List.mem_append.mp hmem with hmem | hmem
                      · rcases cancel_fade_effect_shape _ wid _ hmem with ⟨t, hcc⟩
                        exact Effect.noConfusion hcc
                      · rcases List.mem_singleton.mp hmem with hcc
                        exact Effect.noConfusion hcc
            · exact Or.inr (Or.inl ⟨wid, w, rfl, hw, bool_eq_false hfa⟩)

theorem present_updates_in_place_witness :
    Effect.update_text 0 "next" ∈
      (present_or_update_notification_on_main sampleShown "next" (some 4)).2 ∧
    (∀ eff ∈ (present_or_update_notification_on_main sampleShown "next" (some 4)).2,
      ∀ n, eff ≠ Effect.create_surface n) :=
  ⟨((present_updates_in_place.1 sampleShown "next" (some 4) 0 sampleWindow
      rfl rfl rfl rfl)).2.1,
    ((present_updates_in_place.1 sampleShown "next" (some 4) 0 sampleWindow
      rfl rfl rfl rfl)).1⟩

/-- C7: a shutdown-gated `_execute_transition` returns immediately with no
effect; otherwise its effect trace decomposes, in order, into (b) the
cancellation of the previous dwell timer, (c) the arming of a fresh dwell
timer exactly when `start_min_timer` is true (reflected in the resulting
handle), (d) the recording of the new state with `state_start_time = now`,
and (e) the effects of `PresentAndUpdate` with the given message and fade
timeout on the intermediate state, headed by its presentation marker. -/
theorem transition_effect_order (now : ℚ) (st : NotificationState) (m : String)
    (tmo : Option ℚ) (arm : Bool) (s : NotifState) :
    (s.shutting_down = true → execute_transition now st m tmo arm s = (s, [])) ∧
    (s.shutting_down = false →
      ∃ e1 e2 e4 s4,
        execute_transition now st m tmo arm s =
          (s4, e1 ++ e2 ++ (Effect.record_state st now :: e4)) ∧
        ((s.min_display_timer = none ∧ e1 = []) ∨
          (∃ t, s.min_display_timer = some t ∧ e1 = [Effect.cancel_dwell t])) ∧
        ((arm = true ∧ ∃ t, e2 = [Effect.arm_dwell t minCaptureDisplay] ∧
            s4.min_display_timer = some t) ∨
          (arm = false ∧ e2 = [] ∧ s4.min_display_timer = none)) ∧
        s4.current_state = st ∧ s4.state_start_time = now ∧
        (∃ s3, s3.current_state = st ∧ s3.state_start_time = now ∧
          s3.shutting_down = false ∧
          (s4, e4) = present_or_update_notification_on_main s3 m tmo ∧
          e4.head? = some (Effect.present m tmo))) := by
  constructor
  · intro hsd
    exact exec_gate now st m tmo arm s hsd
  · intro hsd
    refine ⟨(cancel_min_display_timer s).2,
      (if arm then start_min_display_timer (cancel_min_display_timer s).1
       else ((cancel_min_display_timer s).1, [])).2,
      (present_or_update_notification_on_main
        { (if arm then start_min_display_timer (cancel_min_display_timer s).1
           else ((cancel_min_display_timer s).1, [])).1 with
          current_state := st, state_start_time := now } m tmo).2,
      (present_or_update_notification_on_main
        { (if arm then start_min_display_timer (cancel_min_display_timer s).1
           else ((cancel_min_display_timer s).1, [])).1 with
          current_state := st, state_start_time := now } m tmo).1,
      exec_decomposition now st m tmo arm s hsd, ?_, ?_, ?_, ?_, ?_⟩
    · rcases hm : s.min_display_timer with _ | t
      · exact Or.inl ⟨rfl, cancel_min_effects_none s hm⟩
      · exact Or.inr ⟨t, rfl, cancel_min_effects_some s t hm⟩
    · cases arm with
      | true =>
          refine Or.inl ⟨rfl, s.next_timer_id, ?_, ?_⟩
          · simp only [if_true]
            rw [start_min_effects, cancel_min_effects_none _ (cancel_min_min s)]
            simp
          · rw [(present_frame _ m tmo).2.2.1]
            simp
      | false =>
          refine Or.inr ⟨rfl, rfl, ?_⟩
          rw [(present_frame _ m tmo).2.2.1]
          simp
    · rw [(present_frame _ m tmo).1]
    · rw [(present_frame _ m tmo).2.1]
    · refine ⟨{ (if arm then start_min_display_timer (cancel_min_display_timer s).1
          else ((cancel_min_display_timer s).1, [])).1 with
          current_state := st, state_start_time := now }, rfl, rfl, ?_, rfl, ?_⟩
      · cases arm <;> simp [hsd]
      · exact present_effects_head _ m tmo (by cases arm <;> simp [hsd])

theorem transition_effect_order_witness :
    initState.shutting_down = false ∧
    (execute_transition 1 NotificationState.screenCaptured captureMessage none true
      initState).1.current_state = NotificationState.screenCaptured ∧
    (execute_transition 1 NotificationState.screenCaptured captureMessage none true
      initState).1.state_start_time = 1 := by
  refine ⟨rfl, ?_, ?_⟩
  · obtain ⟨e1, e2, e4, s4, heq, -, -, hst, -, -⟩ :=
      (transition_effect_order 1 NotificationState.screenCaptured captureMessage none
        true initState).2 rfl
    rw [heq]
    exact hst
  · obtain ⟨e1, e2, e4, s4, heq, -, -, -, hstart, -⟩ :=
      (transition_effect_order 1 NotificationState.screenCaptured captureMessage none
        true initState).2 rfl
    rw [heq]
    exact hstart


/-- C8, counterexample to the claim as stated: when the shutdown flag is
set, `_dispatch_to_main` returns without invoking its callback even on the
UI thread — the inline synchronous call does not happen. -/
theorem dispatch_shutdown_counterexample :
    dispatch_to_main true true false true true = ([], false) ∧
    DispatchAction.inline_call ∉ (dispatch_to_main true true false true true).1 := by
  decide

/-- C8 (amended): `_dispatch_to_main` never raises to the caller; outside
shutdown it invokes the callback synchronously inline when the caller is on
the UI thread (exactly once when the callback does not raise), and off the
UI thread it falls through the marshalling chain `performBlock_` →
`performSelectorOnMainThread` → direct invocation with a warning. When the
shutdown flag is set it drops the callback instead. -/
theorem dispatch_inline_and_never_raises (sd im cr pok sok : Bool) :
    (dispatch_to_main sd im cr pok sok).2 = false ∧
    (sd = false → im = true → cr = false →
      (dispatch_to_main sd im cr pok sok).1 = [DispatchAction.inline_call]) ∧
    (sd = false → im = true →
      DispatchAction.inline_call ∈ (dispatch_to_main sd im cr pok sok).1) ∧
    (sd = false → im = false →
      (dispatch_to_main sd im cr pok sok).1 =
        (if pok = true then [DispatchAction.queue_primary]
         else if sok = true then [DispatchAction.queue_secondary]
         else [DispatchAction.direct_fallback])) ∧
    (sd = true → dispatch_to_main sd im cr pok sok = ([], false)) := by
  revert sd im cr pok sok
  decide

theorem dispatch_inline_and_never_raises_witness :
    (dispatch_to_main false true false true true).1 = [DispatchAction.inline_call] ∧
    (dispatch_to_main false false false false false).1 =
      [DispatchAction.direct_fallback] ∧
    (dispatch_to_main false false false false false).2 = false :=
  ⟨(dispatch_inline_and_never_raises false true false true true).2.1 rfl rfl rfl,
    by
      have h := (dispatch_inline_and_never_raises false false false false false).2.2.2.1
        rfl rfl
      simpa using h,
    (dispatch_inline_and_never_raises false false false false false).1⟩

/-- C9: `notification_shutdown` always leaves the gate set; a first call
(gate not yet set) cancels the dwell timer (handle cleared, and no live
dwell timer remains when the dwell bookkeeping was consistent), clears
`_ACTIVE_NOTIFICATION`, resets the machine to `IDLE` with start time 0 and
empties the pending queue; a second call is an exact no-op, so running it
twice produces the same end state as running it once. -/
theorem shutdown_idempotent (s : NotifState) :
    (notification_shutdown s).1.shutting_down = true ∧
    (s.shutting_down = false →
      (notification_shutdown s).1.min_display_timer = none ∧
      (notification_shutdown s).1.active_notification = none ∧
      (notification_shutdown s).1.current_state = NotificationState.idle ∧
      (notification_shutdown s).1.state_start_time = 0 ∧
      (notification_shutdown s).1.pending_notifications = [] ∧
      ((s.live_dwell_timers = [] ∨
          ∃ t, s.live_dwell_timers = [t] ∧ s.min_display_timer = some t) →
        (notification_shutdown s).1.live_dwell_timers = [])) ∧
    notification_shutdown (notification_shutdown s).1 = ((notification_shutdown s).1, []) ∧
    (notification_shutdown (notification_shutdown s).1).1 = (notification_shutdown s).1 ∧
    (s.shutting_down = true → notification_shutdown s = (s, [])) := by
  have hflag : (notification_shutdown s).1.shutting_down = true := by
    unfold notification_shutdown
    by_cases hsd : s.shutting_down = true
    · simp [hsd]
    · rw [bool_eq_false hsd]
      simp
  have hsecond : notification_shutdown (notification_shutdown s).1 =
      ((notification_shutdown s).1, []) := by
    rw [show notification_shutdown (notification_shutdown s).1 =
        (if (notification_shutdown s).1.shutting_down = true
         then ((notification_shutdown s).1, [])
         else _) from rfl, hflag]
    simp
  refine ⟨hflag, ?_, hsecond, by rw [hsecond], ?_⟩
  · intro hsd
    unfold notification_shutdown
    rw [hsd]
    simp only [Bool.false_eq_true, if_false]
    refine ⟨by simp, by simp, by simp, by simp, by simp, ?_⟩
    intro hd
    refine cancel_min_dwell_empty _ ?_
    simpa using hd
  · intro hsd
    unfold notification_shutdown
    simp [hsd]

theorem shutdown_idempotent_witness :
    (notification_shutdown initState).1.shutting_down = true ∧
    (notification_shutdown initState).1.pending_notifications = [] ∧
    (notification_shutdown (notification_shutdown initState).1).1 =
      (notification_shutdown initState).1 :=
  ⟨(shutdown_idempotent initState).1,
    ((shutdown_idempotent initState).2.1 rfl).2.2.2.2.1,
    (shutdown_idempotent initState).2.2.2.1⟩

/-- C10: `update_notification` called from a non-main thread (toolkit
available, primary marshalling succeeding) returns the result record's
initial `False` — the `_update` callback runs only later on the main thread
— even in states where that dispatched callback succeeds, e.g. whenever an
active window exists; only when called on the UI thread, where
`_dispatch_to_main` runs the callback inline, does the returned boolean
equal the actual outcome of the update body. -/
theorem update_offmain_stale_result (s : NotifState) (m : String) (tmo : Option ℚ) :
    update_notification false s m tmo = (s, [], false) ∧
    (s.shutting_down = false →
      update_notification true s m tmo = update_notification_on_main s m tmo) ∧
    (∀ wid w, s.active_notification = some wid → s.windows wid = some w →
      w.notification_active = true →
      (update_notification_on_main s m tmo).2.2 = true) := by
  refine ⟨?_, ?_, ?_⟩
  · unfold update_notification
    by_cases hsd : s.shutting_down = true
    · simp [hsd]
    · simp [bool_eq_false hsd]
  · intro hsd
    unfold update_notification
    simp [hsd]
  · intro wid w ha hw hfa
    unfold update_notification_on_main
    simp only [ha, hw, hfa, if_true]

theorem update_offmain_stale_result_witness :
    update_notification false sampleShown "fresh" (some 4) = (sampleShown, [], false) ∧
    (update_notification_on_main sampleShown "fresh" (some 4)).2.2 = true :=
  ⟨(update_offmain_stale_result sampleShown "fresh" (some 4)).1,
    (update_offmain_stale_result sampleShown "fresh" (some 4)).2.2 0 sampleWindow
      rfl rfl rfl⟩

end ScreenCal
